import Mathlib

/-!
The bot na_glazok_bot: challenge store and update dispatch.

A shallow embedding of `cpp_bot/src/GameLogic.{h,cpp}` and of the dispatch code of
`cpp_bot/src/TelegramBot.cpp`, followed by theorems about the embedded functions.

Conventions of the embedding.

* `std::map<std::string, Challenge>` is a list of nodes in strictly ascending key order
  (`ChallengeMap`); `find`, `erase(iterator)` and `operator[]`-then-assign are given on it.
* `std::chrono::system_clock::time_point` is the signed count of clock ticks since the epoch.
  The build uses libstdc++ (`<bits/stdc++.h>`), whose `system_clock` ticks in nanoseconds.
  A difference of two clock readings is the exact integer difference: readings of a real
  clock lie within the 292 years an `int64_t` nanosecond count spans, and signed overflow
  has no defined behaviour to embed.
* Every call of `system_clock::now()` is an explicit argument of the function that makes it.
* `log(...)` writes a diagnostic line to standard output and is not embedded.
-/

/-! ## GameLogic.h -/

/-- The struct `Challenge` of `GameLogic.h`. -/
structure Challenge where
  userId : String
  prompt : String
  correctAnswer : String
  imageBase64 : String
  createdAt : Int
deriving DecidableEq, Repr

/-- The comparison `std::less<std::string>` that orders the keys of the map:
lexicographic comparison of the character sequences. -/
def keyLess (a b : String) : Prop := a.data < b.data

instance keyLessDecidable : DecidableRel keyLess :=
  fun a b => inferInstanceAs (Decidable (a.data < b.data))

/-- The nodes of a `std::map<std::string, Challenge>`, in iteration order. -/
abbrev Nodes := List (String × Challenge)

/-- The iteration order of a `std::map`: keys strictly ascending (hence unique). -/
def Nodes.Ordered (l : Nodes) : Prop := l.Pairwise (fun a b => keyLess a.1 b.1)

/-- The node reached by `map::find(k)`, if any. -/
def Nodes.find (k : String) : Nodes → Option Challenge
  | [] => none
  | (k', c) :: rest => if k' = k then some c else Nodes.find k rest

/-- The nodes left by `map::erase(it)` for the iterator `it` that `find(k)` returned. -/
def Nodes.erase (k : String) : Nodes → Nodes
  | [] => []
  | (k', c) :: rest => if k' = k then rest else (k', c) :: Nodes.erase k rest

/-- The nodes after `map[k] = c`: the value of an existing node is overwritten, otherwise a
node is inserted at its place in key order. -/
def Nodes.assign (k : String) (c : Challenge) : Nodes → Nodes
  | [] => [(k, c)]
  | (k', c') :: rest =>
    if keyLess k k' then (k, c) :: (k', c') :: rest
    else if k' = k then (k, c) :: rest
    else (k', c') :: Nodes.assign k c rest

/-- The duration `std::chrono::minutes(1)` in ticks of `system_clock` (nanoseconds). -/
def ticksPerMinute : Int := 60000000000

/-- The member `challengeTimeout = std::chrono::minutes(10)`, in minutes. -/
def challengeTimeout : Int := 10

/-- The conversion `std::chrono::duration_cast<std::chrono::minutes>` of a tick count:
integer division truncating toward zero. -/
def durationCastMinutes (ticks : Int) : Int := Int.tdiv ticks ticksPerMinute

/-- The function `GameLogic::isChallengeExpired`; `now` is the clock reading it takes. -/
def isChallengeExpired (now : Int) (challenge : Challenge) : Bool :=
  let duration := durationCastMinutes (now - challenge.createdAt)
  let expired := decide (duration ≥ challengeTimeout)
  expired

/-- The loop of `GameLogic::cleanupExpiredChallenges` from the node the iterator stands on.
Each visited node is judged by its own call of `isChallengeExpired`, which reads the clock
anew: `clock i` is the reading of the call numbered `i`. -/
def cleanupLoop (clock : Nat → Int) : Nat → Nodes → Nodes
  | _, [] => []
  | i, (k, c) :: rest =>
    if isChallengeExpired (clock i) c then cleanupLoop clock (i + 1) rest
    else (k, c) :: cleanupLoop clock (i + 1) rest

/-! ### Order lemmas needed to build the map type -/

theorem keyLess_irrefl (a : String) : ¬ keyLess a a := by
  intro h
  have h' : a < a := String.lt_iff_toList_lt.mpr h
  exact lt_irrefl a h'

theorem keyLess_trans {a b c : String} (h₁ : keyLess a b) (h₂ : keyLess b c) : keyLess a c := by
  have h₁' : a < b := String.lt_iff_toList_lt.mpr h₁
  have h₂' : b < c := String.lt_iff_toList_lt.mpr h₂
  exact String.lt_iff_toList_lt.mp (lt_trans h₁' h₂')

theorem keyLess_of_not_of_ne {a b : String} (h₁ : ¬ keyLess a b) (h₂ : b ≠ a) : keyLess b a := by
  rcases lt_trichotomy a b with h | h | h
  · exact absurd (String.lt_iff_toList_lt.mp h) h₁
  · exact absurd h.symm h₂
  · exact String.lt_iff_toList_lt.mp h

theorem Nodes.mem_erase {k : String} {e : String × Challenge} :
    ∀ {l : Nodes}, e ∈ Nodes.erase k l → e ∈ l
  | [], h => by simp [Nodes.erase] at h
  | (k', c) :: rest, h => by
    unfold Nodes.erase at h
    split at h
    · exact List.mem_cons_of_mem _ h
    · rcases List.mem_cons.mp h with h | h
      · exact h ▸ List.mem_cons_self _ _
      · exact List.mem_cons_of_mem _ (Nodes.mem_erase h)

theorem Nodes.erase_ordered (k : String) : ∀ {l : Nodes}, l.Ordered → (Nodes.erase k l).Ordered
  | [], _ => by simp [Nodes.erase, Nodes.Ordered]
  | (k', c) :: rest, h => by
    have h' := List.pairwise_cons.mp h
    unfold Nodes.erase
    split
    · exact h'.2
    · exact List.pairwise_cons.mpr
        ⟨fun e he => h'.1 e (Nodes.mem_erase he), Nodes.erase_ordered k h'.2⟩

theorem Nodes.mem_assign {k : String} {c : Challenge} {e : String × Challenge} :
    ∀ {l : Nodes}, e ∈ Nodes.assign k c l → e = (k, c) ∨ e ∈ l
  | [], h => by
    simp [Nodes.assign] at h
    exact Or.inl h
  | (k', c') :: rest, h => by
    unfold Nodes.assign at h
    split at h
    · rcases List.mem_cons.mp h with h | h
      · exact Or.inl h
      · exact Or.inr h
    · split at h
      · rcases List.mem_cons.mp h with h | h
        · exact Or.inl h
        · exact Or.inr (List.mem_cons_of_mem _ h)
      · rcases List.mem_cons.mp h with h | h
        · exact Or.inr (h ▸ List.mem_cons_self _ _)
        · rcases Nodes.mem_assign h with h | h
          · exact Or.inl h
          · exact Or.inr (List.mem_cons_of_mem _ h)

theorem Nodes.assign_ordered (k : String) (c : Challenge) :
    ∀ {l : Nodes}, l.Ordered → (Nodes.assign k c l).Ordered
  | [], _ => by simp [Nodes.assign, Nodes.Ordered]
  | (k', c') :: rest, h => by
    have h' := List.pairwise_cons.mp h
    unfold Nodes.assign
    split
    · rename_i hlt
      refine List.pairwise_cons.mpr ⟨?_, h⟩
      intro e he
      rcases List.mem_cons.mp he with he | he
      · subst he
        exact hlt
      · exact keyLess_trans hlt (h'.1 e he)
    · rename_i hnlt
      split
      · rename_i heq
        subst heq
        exact List.pairwise_cons.mpr ⟨h'.1, h'.2⟩
      · rename_i hne
        refine List.pairwise_cons.mpr ⟨?_, Nodes.assign_ordered k c h'.2⟩
        intro e he
        rcases Nodes.mem_assign he with he | he
        · subst he
          exact keyLess_of_not_of_ne hnlt hne
        · exact h'.1 e he

theorem cleanupLoop_sublist (clock : Nat → Int) :
    ∀ (i : Nat) (l : Nodes), (cleanupLoop clock i l).Sublist l
  | _, [] => by simp [cleanupLoop]
  | i, (k, c) :: rest => by
    unfold cleanupLoop
    split
    · exact (cleanupLoop_sublist clock (i + 1) rest).cons _
    · exact (cleanupLoop_sublist clock (i + 1) rest).cons₂ _

/-! ### The map and the class -/

/-- A `std::map<std::string, Challenge>`. -/
structure ChallengeMap where
  nodes : Nodes
  ordered : nodes.Ordered

/-- The map a default-constructed `GameLogic` starts from. -/
def ChallengeMap.empty : ChallengeMap := ⟨[], List.Pairwise.nil⟩

/-- The call `map::find(k)`: the mapped value of the node found, `none` for `end()`. -/
def ChallengeMap.find (m : ChallengeMap) (k : String) : Option Challenge :=
  Nodes.find k m.nodes

/-- The call `map::erase(it)` with `it = find(k)`. -/
def ChallengeMap.erase (m : ChallengeMap) (k : String) : ChallengeMap :=
  ⟨Nodes.erase k m.nodes, Nodes.erase_ordered k m.ordered⟩

/-- The statement `map[k] = c`. -/
def ChallengeMap.assign (m : ChallengeMap) (k : String) (c : Challenge) : ChallengeMap :=
  ⟨Nodes.assign k c m.nodes, Nodes.assign_ordered k c m.ordered⟩

/-- The state of the class `GameLogic` (the timeout member is the constant
`challengeTimeout`). -/
structure GameLogic where
  activeChallenges : ChallengeMap

/-- The constructor `GameLogic::GameLogic()`. -/
def GameLogic.new : GameLogic := ⟨ChallengeMap.empty⟩

/-- The method `GameLogic::startChallenge`; `now` is its reading of the clock. -/
def GameLogic.startChallenge (g : GameLogic) (now : Int)
    (userId prompt correctAnswer imageBase64 : String) : GameLogic :=
  let challenge : Challenge :=
    { userId := userId
      prompt := prompt
      correctAnswer := correctAnswer
      imageBase64 := imageBase64
      createdAt := now }
  { activeChallenges := g.activeChallenges.assign userId challenge }

/-- The method `GameLogic::checkAnswer`: the returned flag and the state it leaves. No
statement of the method throws. -/
def GameLogic.checkAnswer (g : GameLogic) (userId userAnswer : String) : Bool × GameLogic :=
  match g.activeChallenges.find userId with
  | some found =>
    let isCorrect := decide (found.correctAnswer = userAnswer)
    (isCorrect, { activeChallenges := g.activeChallenges.erase userId })
  | none => (false, g)

/-- The method `GameLogic::getActiveChallenge`: the challenge pointed to by the returned
pointer (`none` for `nullptr`) and the state it leaves; `now` is the clock reading taken
by `isChallengeExpired`, which is only called when a node was found. -/
def GameLogic.getActiveChallenge (g : GameLogic) (now : Int) (userId : String) :
    Option Challenge × GameLogic :=
  match g.activeChallenges.find userId with
  | some found => if !isChallengeExpired now found then (some found, g) else (none, g)
  | none => (none, g)

/-- The method `GameLogic::cleanupExpiredChallenges`; `clock i` is the clock reading of the
call of `isChallengeExpired` on the node visited at step `i`. -/
def GameLogic.cleanupExpiredChallenges (g : GameLogic) (clock : Nat → Int) : GameLogic :=
  { activeChallenges :=
      ⟨cleanupLoop clock 0 g.activeChallenges.nodes,
        List.Pairwise.sublist (cleanupLoop_sublist clock 0 _) g.activeChallenges.ordered⟩ }

/-! ## TelegramBot.cpp

The bot talks to three collaborators: the Telegram HTTP API (`TelegramBot::makeRequest`), the
AI service (`AIService::generatePrompt`, `AIService::generateImage`) and the system clock.
What they answer is not decided by the program: it is given by an `Env`. Every method takes
the state of the bot and returns how the call ended (`.ok` for a normal return, `.error what`
for a thrown `std::exception` with that `what()`) together with the state it leaves; changes
made before a throw stay made, as in C++.
-/

/-- The conversion of a JSON integer to `int` done by `get<int>()`, and the value of an `int`
addition: reduction to 32 bits, two's complement. -/
def toInt32 (n : Int) : Int := (n + 2147483648) % 4294967296 - 2147483648

/-- The character of the decimal digit `d`. -/
def digitChar (d : Nat) : Char := Char.ofNat (48 + d)

/-- The decimal digits of `n`, most significant first; `fuel` bounds the number of digits
after the first and is taken as `n` itself. -/
def decimalDigits : Nat → Nat → List Char
  | 0, n => [digitChar (n % 10)]
  | fuel + 1, n =>
    if n < 10 then [digitChar n] else decimalDigits fuel (n / 10) ++ [digitChar (n % 10)]

/-- The library function `std::to_string(int)`: the decimal digits, after a minus sign for a
negative value. -/
def to_string (n : Int) : String :=
  if n < 0 then String.mk ('-' :: decimalDigits n.natAbs n.natAbs)
  else String.mk (decimalDigits n.natAbs n.natAbs)

/-- The library predicate `isspace` in the C locale. -/
def isspace (c : Char) : Bool :=
  c = ' ' || c = Char.ofNat 9 || c = Char.ofNat 10 || c = Char.ofNat 11 ||
    c = Char.ofNat 12 || c = Char.ofNat 13

/-- The library predicate `isdigit`. -/
def isdigit (c : Char) : Bool := decide (48 ≤ c.toNat ∧ c.toNat ≤ 57)

/-- The value of a digit character. -/
def digitValue (c : Char) : Nat := c.toNat - 48

/-- The number written by a run of digits. -/
def digitsValue (digits : List Char) : Nat :=
  digits.foldl (fun acc c => acc * 10 + digitValue c) 0

/-- The optional sign read by `std::stoi`: whether it is a minus, and the characters after
it. -/
def stoiSign : List Char → Bool × List Char
  | '-' :: rest => (true, rest)
  | '+' :: rest => (false, rest)
  | cs => (false, cs)

/-- The library function `std::stoi(str)` (base 10): leading white space is skipped, an
optional sign is read, then the longest run of digits; what follows is ignored. It throws
`std::invalid_argument` when there is no digit and `std::out_of_range` when the number is
not an `int`; in libstdc++ the `what()` of both is "stoi". -/
def stoi (str : String) : Except String Int :=
  let afterSpace := str.data.dropWhile isspace
  let signed := stoiSign afterSpace
  let digits := signed.2.takeWhile isdigit
  if digits = [] then .error "stoi"
  else
    let value : Int := if signed.1 then -(digitsValue digits : Int) else (digitsValue digits : Int)
    if value < -2147483648 ∨ 2147483647 < value then .error "stoi" else .ok value

/-- The struct `PromptResponse` of `AIService.h`. -/
structure PromptResponse where
  prompt : String
  correctAnswer : String
deriving DecidableEq, Repr

/-- A button of an inline keyboard: the JSON object with `text` and `callback_data`. -/
structure Button where
  text : String
  callback_data : String
deriving DecidableEq, Repr

/-- A call of `TelegramBot::makeRequest(method, payload)`: the method and the fields the
code puts in the payload. A field that the code sets only under a condition is optional. -/
inductive Request where
  | getUpdates (offset : Option Int)
  | sendMessage (chat_id text : String)
  | sendPhoto (chat_id photo : String) (caption : Option String)
      (reply_markup : Option (List (List Button)))
  | answerCallbackQuery (callback_query_id : String)
deriving DecidableEq, Repr

/-- The object `update["message"]` as far as the code reads it: `chat.id`, `from.id` and,
when the message has one, `text`. -/
structure Message where
  chat_id : Int
  from_id : Int
  text : Option String
deriving DecidableEq, Repr

/-- The object `update["callback_query"]` as far as the code reads it: `message.chat.id`,
`from.id`, `data` and `id`. -/
structure CallbackQuery where
  chat_id : Int
  from_id : Int
  data : String
  id : String
deriving DecidableEq, Repr

/-- An element of the `result` array of a `getUpdates` response; each of the three members
the code tests with `contains` may be missing. -/
structure Update where
  update_id : Option Int
  message : Option Message
  callback_query : Option CallbackQuery
deriving DecidableEq, Repr

/-- A call the bot makes: to a collaborator (`makeRequest`, the AI service, the sleep of the
loop) or to a method of its `GameLogic`. -/
inductive Effect where
  | makeRequest (request : Request)
  | generatePrompt
  | generateImage (prompt : String)
  | sleep (seconds : Nat)
  | startChallenge (userId prompt correctAnswer imageBase64 : String)
  | checkAnswer (userId userAnswer : String)
  | cleanupExpiredChallenges
deriving DecidableEq, Repr

/-- What the collaborators answer. The first argument of `transport`, `generatePrompt` and
`generateImage` is the number of calls recorded before; `transport` gives the
`result` array of the parsed response, or the `what()` of the exception caught inside
`makeRequest`; the AI functions give their return value or the `what()` of what they throw.
The reading of the clock numbered `k` is `now k`. -/
structure Env where
  transport : Nat → Request → Except String (List Update)
  generatePrompt : Nat → Except String PromptResponse
  generateImage : Nat → String → Except String String
  now : Nat → Int

/-- The state of the class `TelegramBot` (the members that change), the counter local to
`start`, and the record of the calls made so far, oldest first, with the number of clock
readings taken. -/
structure TelegramBot where
  lastUpdateId : String
  gameLogic : GameLogic
  updateCount : Int
  effects : List Effect
  clockReads : Nat

/-- The bot as `main` constructs it, when `start` has set its counter. -/
def TelegramBot.new : TelegramBot :=
  { lastUpdateId := "", gameLogic := GameLogic.new, updateCount := 0, effects := [],
    clockReads := 0 }

/-- Sequencing of statements: `next` runs from the state `first` leaves and with the value
it returned; when `first` threw, the exception goes on and `next` is not run. -/
def thenDo {α β : Type} (first : Except String α × TelegramBot)
    (next : α → TelegramBot → Except String β × TelegramBot) :
    Except String β × TelegramBot :=
  match first with
  | (.ok value, bot) => next value bot
  | (.error what, bot) => (.error what, bot)

/-- The handler of `catch (const std::exception& e)` around a `try` block. -/
def catchDo {α : Type} (tried : Except String α × TelegramBot)
    (handler : String → TelegramBot → Except String α × TelegramBot) :
    Except String α × TelegramBot :=
  match tried with
  | (.ok value, bot) => (.ok value, bot)
  | (.error what, bot) => handler what bot

/-- The method `TelegramBot::makeRequest`: whatever fails inside is rethrown as a
`std::runtime_error` whose message starts with "Request failed: ". -/
def TelegramBot.makeRequest (bot : TelegramBot) (env : Env) (request : Request) :
    Except String (List Update) × TelegramBot :=
  let bot' := { bot with effects := bot.effects ++ [Effect.makeRequest request] }
  match env.transport bot.effects.length request with
  | .ok response => (.ok response, bot')
  | .error what => (.error ("Request failed: " ++ what), bot')

/-- The method `TelegramBot::sendMessage`. -/
def TelegramBot.sendMessage (bot : TelegramBot) (env : Env) (chatId text : String) :
    Except String Unit × TelegramBot :=
  thenDo (bot.makeRequest env (.sendMessage chatId text)) fun _ bot' => (.ok (), bot')

/-- The method `TelegramBot::sendPhotoByUrl`. -/
def TelegramBot.sendPhotoByUrl (bot : TelegramBot) (env : Env)
    (chatId photoUrl caption : String) : Except String Unit × TelegramBot :=
  let captionField := if caption = "" then none else some caption
  thenDo (bot.makeRequest env (.sendPhoto chatId photoUrl captionField none))
    fun _ bot' => (.ok (), bot')

/-- The inline keyboard built in `sendIllusionChallenge`: three rows of one button. -/
def illusionKeyboard : List (List Button) :=
  [[⟨"First is larger", "first"⟩], [⟨"Second is larger", "second"⟩],
    [⟨"They are equal", "equal"⟩]]

/-- The call `aiService->generatePrompt()`. -/
def TelegramBot.generatePrompt (bot : TelegramBot) (env : Env) :
    Except String PromptResponse × TelegramBot :=
  (env.generatePrompt bot.effects.length,
    { bot with effects := bot.effects ++ [Effect.generatePrompt] })

/-- The call `aiService->generateImage(prompt)`. -/
def TelegramBot.generateImage (bot : TelegramBot) (env : Env) (prompt : String) :
    Except String String × TelegramBot :=
  (env.generateImage bot.effects.length prompt,
    { bot with effects := bot.effects ++ [Effect.generateImage prompt] })

/-- The call `gameLogic->startChallenge(...)`, which takes one reading of the clock. -/
def TelegramBot.startChallenge (bot : TelegramBot) (env : Env)
    (userId prompt correctAnswer imageBase64 : String) : TelegramBot :=
  { bot with
    gameLogic := bot.gameLogic.startChallenge (env.now bot.clockReads) userId prompt
      correctAnswer imageBase64
    effects := bot.effects ++ [Effect.startChallenge userId prompt correctAnswer imageBase64]
    clockReads := bot.clockReads + 1 }

/-- The `try` block of `TelegramBot::sendIllusionChallenge`. -/
def TelegramBot.sendIllusionChallengeTry (bot : TelegramBot) (env : Env) (chatId : String) :
    Except String Unit × TelegramBot :=
  thenDo (bot.generatePrompt env) fun promptResponse bot1 =>
    if promptResponse.prompt = "" then
      bot1.sendMessage env chatId
        "Sorry, I couldn't generate a proper prompt for the illusion. Please try again."
    else
      thenDo (bot1.generateImage env promptResponse.prompt) fun base64Image bot2 =>
        if base64Image = "" then
          bot2.sendMessage env chatId
            "Sorry, I couldn't generate the illusion image. Please try again."
        else
          let bot3 := bot2.startChallenge env chatId promptResponse.prompt
            promptResponse.correctAnswer base64Image
          thenDo
            (bot3.makeRequest env
              (.sendPhoto chatId ("data:image/png;base64," ++ base64Image)
                (some "Which object appears larger?") (some illusionKeyboard)))
            fun _ bot4 => (.ok (), bot4)

/-- The method `TelegramBot::sendIllusionChallenge`: the `try` block, and the handler of
`catch (const std::exception& e)`, which sends one more message. -/
def TelegramBot.sendIllusionChallenge (bot : TelegramBot) (env : Env) (chatId : String) :
    Except String Unit × TelegramBot :=
  catchDo (bot.sendIllusionChallengeTry env chatId) fun what bot' =>
    bot'.sendMessage env chatId
      ("Sorry, I encountered an error while generating the illusion: " ++ what ++
        ". Please try again.")

/-- The method `TelegramBot::handleCallbackQuery`. -/
def TelegramBot.handleCallbackQuery (bot : TelegramBot) (env : Env)
    (callbackQuery : CallbackQuery) : Except String Unit × TelegramBot :=
  let chatId := to_string (toInt32 callbackQuery.chat_id)
  let userId := to_string (toInt32 callbackQuery.from_id)
  let callbackData := callbackQuery.data
  let callbackId := callbackQuery.id
  thenDo (bot.makeRequest env (.answerCallbackQuery callbackId)) fun _ bot1 =>
    let checked := bot1.gameLogic.checkAnswer userId callbackData
    let isCorrect := checked.1
    let bot2 :=
      { bot1 with
        gameLogic := checked.2
        effects := bot1.effects ++ [Effect.checkAnswer userId callbackData] }
    if isCorrect then bot2.sendMessage env chatId "Correct! Well done."
    else bot2.sendMessage env chatId "Incorrect. Try again!"

/-- The method `TelegramBot::processMessage`. -/
def TelegramBot.processMessage (bot : TelegramBot) (env : Env) (chatId text : String) :
    Except String Unit × TelegramBot :=
  if text = "/start" then
    bot.sendMessage env chatId
      "Welcome! Available commands:\n/illusion - Generate an optical illusion\n/help - Show help"
  else if text = "/help" then
    bot.sendMessage env chatId
      "Available commands:\n/illusion - Generate an optical illusion\n/image_url - Send a sample image"
  else if text = "/illusion" then
    bot.sendIllusionChallenge env chatId
  else if text = "/image_url" then
    bot.sendPhotoByUrl env chatId "https://vk.com/wall-186827059_25467" ""
  else
    bot.sendMessage env chatId "Unknown command. Type /help for available commands."

/-- The first statement of the loop body of `handleUpdates`: an update that has an
`update_id` overwrites `lastUpdateId` with its decimal form. -/
def TelegramBot.storeUpdateId (bot : TelegramBot) (update : Update) : TelegramBot :=
  match update.update_id with
  | some id => { bot with lastUpdateId := to_string (toInt32 id) }
  | none => bot

/-- The second statement of the loop body: a message that has a text is processed. -/
def TelegramBot.handleMessage (bot : TelegramBot) (env : Env) (update : Update) :
    Except String Unit × TelegramBot :=
  match update.message with
  | some message =>
    match message.text with
    | some text =>
      let chatId := to_string (toInt32 message.chat_id)
      bot.processMessage env chatId text
    | none => (.ok (), bot)
  | none => (.ok (), bot)

/-- The body of the loop of `TelegramBot::handleUpdates` for one update. -/
def TelegramBot.handleUpdate (bot : TelegramBot) (env : Env) (update : Update) :
    Except String Unit × TelegramBot :=
  thenDo ((bot.storeUpdateId update).handleMessage env update) fun _ bot2 =>
    match update.callback_query with
    | some callbackQuery => bot2.handleCallbackQuery env callbackQuery
    | none => (.ok (), bot2)

/-- The method `TelegramBot::handleUpdates`: the updates in order, until one throws. -/
def TelegramBot.handleUpdates (bot : TelegramBot) (env : Env) :
    List Update → Except String Unit × TelegramBot
  | [] => (.ok (), bot)
  | update :: rest =>
    thenDo (bot.handleUpdate env update) fun _ bot' => TelegramBot.handleUpdates bot' env rest

/-- The payload of the `getUpdates` request built at the top of the loop of
`TelegramBot::start`: the `offset` field, if it is set. -/
def TelegramBot.getUpdatesPayload (bot : TelegramBot) : Except String (Option Int) :=
  if bot.lastUpdateId = "" then .ok none
  else
    match stoi bot.lastUpdateId with
    | .ok cursor => .ok (some (toInt32 (cursor + 1)))
    | .error what => .error what

/-- The `try` block of the loop body of `TelegramBot::start`: payload, `getUpdates`,
`handleUpdates`, counter, and the sweep on a counter divisible by 10. The sweep takes one
unused reading of the clock and then one per visited node. -/
def TelegramBot.startTry (bot : TelegramBot) (env : Env) : Except String Unit × TelegramBot :=
  thenDo (bot.getUpdatesPayload, bot) fun offset bot0 =>
    thenDo (bot0.makeRequest env (.getUpdates offset)) fun response bot1 =>
      thenDo (bot1.handleUpdates env response) fun _ bot2 =>
        let bot3 := { bot2 with updateCount := toInt32 (bot2.updateCount + 1) }
        if Int.tmod bot3.updateCount 10 = 0 then
          (.ok (),
            { bot3 with
              gameLogic := bot3.gameLogic.cleanupExpiredChallenges
                (fun i => env.now (bot3.clockReads + 1 + i))
              effects := bot3.effects ++ [Effect.cleanupExpiredChallenges]
              clockReads :=
                bot3.clockReads + 1 + bot3.gameLogic.activeChallenges.nodes.length })
        else (.ok (), bot3)

/-- One pass through the body of `while (true)` in `TelegramBot::start`: the `try` block and
the `catch` handler, which sleeps one second. -/
def TelegramBot.startIteration (bot : TelegramBot) (env : Env) : TelegramBot :=
  (catchDo (bot.startTry env) fun _ bot' =>
    (.ok (), { bot' with effects := bot'.effects ++ [Effect.sleep 1] })).2

/-- The state after `n` passes through the loop of `TelegramBot::start`, which never ends. -/
def TelegramBot.start (env : Env) : Nat → TelegramBot → TelegramBot
  | 0, bot => bot
  | n + 1, bot => TelegramBot.start env n (bot.startIteration env)

/-- An environment for the scenarios: every Telegram request succeeds with an empty
`result`, the AI service is unreachable, and the clock stands at 0. -/
def idleEnv : Env :=
  { transport := fun _ _ => .ok []
    generatePrompt := fun _ => .error "Request failed: unreachable"
    generateImage := fun _ _ => .error "Request failed: unreachable"
    now := fun _ => 0 }

/-- An update that carries nothing but its `update_id`. -/
def bareUpdate (id : Int) : Update := { update_id := some id, message := none, callback_query := none }

/-- An environment in which generation succeeds: the AI service answers with the prompt
"Two circles", the answer "first" and the image "aW1n", every Telegram request succeeds with
an empty `result`, and the clock stands at 0. -/
def illusionEnv : Env :=
  { transport := fun _ _ => .ok []
    generatePrompt := fun _ => .ok ⟨"Two circles", "first"⟩
    generateImage := fun _ _ => .ok "aW1n"
    now := fun _ => 0 }

/-- An environment in which the network is down: every Telegram request and every call of
the AI service fails with "timeout". -/
def downEnv : Env :=
  { transport := fun _ _ => .error "timeout"
    generatePrompt := fun _ => .error "Request failed: timeout"
    generateImage := fun _ _ => .error "Request failed: timeout"
    now := fun _ => 0 }

/-- An environment in which only the very first call fails, as a Telegram request, with
"timeout"; the AI service is unreachable. -/
def flakyEnv : Env :=
  { transport := fun i _ => if i = 0 then .error "timeout" else .ok []
    generatePrompt := fun _ => .error "Request failed: unreachable"
    generateImage := fun _ _ => .error "Request failed: unreachable"
    now := fun _ => 0 }

/-- An environment in which the AI service returns an empty prompt and every Telegram
request fails with "timeout". -/
def emptyPromptEnv : Env :=
  { transport := fun _ _ => .error "timeout"
    generatePrompt := fun _ => .ok ⟨"", "equal"⟩
    generateImage := fun _ _ => .ok "aW1n"
    now := fun _ => 0 }

/-- An update with a text message: its id, the chat, the sender and the text. -/
def textUpdate (id chat sender : Int) (text : String) : Update :=
  { update_id := some id
    message := some { chat_id := chat, from_id := sender, text := some text }
    callback_query := none }

/-- An update with a callback query: its id, the chat, the sender, the data of the pressed
button and the id of the query. -/
def callbackUpdate (id chat sender : Int) (data queryId : String) : Update :=
  { update_id := some id
    message := none
    callback_query := some { chat_id := chat, from_id := sender, data := data, id := queryId } }

/-- Whether a recorded call is a call of `GameLogic::cleanupExpiredChallenges`. -/
def Effect.isSweep : Effect → Bool
  | .cleanupExpiredChallenges => true
  | _ => false

/-- The number of calls of `cleanupExpiredChallenges` made so far. -/
def TelegramBot.sweeps (bot : TelegramBot) : Nat := bot.effects.countP Effect.isSweep

/-- Whether the pass through the loop body that starts in this state gets through its `try`
block without an exception. -/
def TelegramBot.iterationSucceeds (bot : TelegramBot) (env : Env) : Bool :=
  match (bot.startTry env).1 with
  | .ok _ => true
  | .error _ => false

/-- The number of passes, among the first `n` passes of the loop of `TelegramBot::start`,
that get through their `try` block without an exception. -/
def TelegramBot.successes (env : Env) : Nat → TelegramBot → Nat
  | 0, _ => 0
  | n + 1, bot =>
    (if bot.iterationSucceeds env then 1 else 0) +
      TelegramBot.successes env n (bot.startIteration env)

/-- The counter of `start` is `u` and the number of sweeps made so far is `n`. -/
def Untouched (u : Int) (n : Nat) (bot : TelegramBot) : Prop :=
  bot.updateCount = u ∧ bot.sweeps = n

/-- What a pass through the `try` block of the loop does to a counter `u` and a number of
sweeps `n`: nothing when it throws; when it gets through, the counter is incremented and one
sweep is made if the new counter is divisible by 10. -/
def TryOutcome (u : Int) (n : Nat) (r : Except String Unit × TelegramBot) : Prop :=
  match r.1 with
  | .ok _ =>
    r.2.updateCount = toInt32 (u + 1) ∧
      r.2.sweeps = n + (if Int.tmod (toInt32 (u + 1)) 10 = 0 then 1 else 0)
  | .error _ => Untouched u n r.2

/-- A call of one of the public methods of `GameLogic`, with the clock readings it takes. -/
inductive Call where
  | startChallenge (now : Int) (userId prompt correctAnswer imageBase64 : String)
  | checkAnswer (userId userAnswer : String)
  | getActiveChallenge (now : Int) (userId : String)
  | cleanupExpiredChallenges (clock : Nat → Int)

/-- The state a call leaves. -/
def Call.run (g : GameLogic) : Call → GameLogic
  | .startChallenge now userId prompt correctAnswer imageBase64 =>
    g.startChallenge now userId prompt correctAnswer imageBase64
  | .checkAnswer userId userAnswer => (g.checkAnswer userId userAnswer).2
  | .getActiveChallenge now userId => (g.getActiveChallenge now userId).2
  | .cleanupExpiredChallenges clock => g.cleanupExpiredChallenges clock

/-- The state a sequence of calls leaves, first call first. -/
def runCalls (g : GameLogic) (calls : List Call) : GameLogic := calls.foldl Call.run g

/-- Whether a call is a `startChallenge` for the user `U`. -/
def Call.startsFor (U : String) : Call → Prop
  | .startChallenge _ userId _ _ _ => userId = U
  | _ => False

/-- The store of the scenario of the specification: a fresh `GameLogic` after
`startChallenge("42", "Which is bigger?", "first", "<bytes>")` at clock reading 0. -/
def scenarioStore : GameLogic :=
  GameLogic.new.startChallenge 0 "42" "Which is bigger?" "first" "<bytes>"

/-! ## Lemmas on the map operations -/

theorem Nodes.find_eq_none_of_all_greater {k : String} :
    ∀ {l : Nodes}, (∀ e ∈ l, keyLess k e.1) → Nodes.find k l = none
  | [], _ => rfl
  | (k', c) :: rest, h => by
    have hk : k' ≠ k := by
      intro heq
      have := h (k', c) (List.mem_cons_self _ _)
      rw [heq] at this
      exact keyLess_irrefl k this
    simp only [Nodes.find, if_neg hk]
    exact Nodes.find_eq_none_of_all_greater (fun e he => h e (List.mem_cons_of_mem _ he))

theorem Nodes.find_erase_self (k : String) :
    ∀ {l : Nodes}, l.Ordered → Nodes.find k (Nodes.erase k l) = none
  | [], _ => rfl
  | (k', c) :: rest, h => by
    have h' := List.pairwise_cons.mp h
    by_cases hk : k' = k
    · simp only [Nodes.erase, if_pos hk]
      exact Nodes.find_eq_none_of_all_greater (fun e he => hk ▸ h'.1 e he)
    · simp only [Nodes.erase, if_neg hk, Nodes.find]
      exact Nodes.find_erase_self k h'.2

theorem Nodes.find_erase_ne {k v : String} (hv : v ≠ k) :
    ∀ (l : Nodes), Nodes.find v (Nodes.erase k l) = Nodes.find v l
  | [] => rfl
  | (k', c) :: rest => by
    by_cases hk : k' = k
    · have hv' : k' ≠ v := fun h => hv (h ▸ hk)
      simp only [Nodes.erase, if_pos hk, Nodes.find, if_neg hv']
    · simp only [Nodes.erase, if_neg hk, Nodes.find]
      rw [Nodes.find_erase_ne hv rest]

theorem Nodes.find_assign_self (k : String) (c : Challenge) :
    ∀ (l : Nodes), Nodes.find k (Nodes.assign k c l) = some c
  | [] => by simp [Nodes.assign, Nodes.find]
  | (k', c') :: rest => by
    unfold Nodes.assign
    split
    · simp [Nodes.find]
    · split
      · simp [Nodes.find]
      · rename_i hne
        simp only [Nodes.find, if_neg hne]
        exact Nodes.find_assign_self k c rest

theorem Nodes.find_assign_ne {k v : String} (c : Challenge) (hv : v ≠ k) :
    ∀ (l : Nodes), Nodes.find v (Nodes.assign k c l) = Nodes.find v l
  | [] => by simp [Nodes.assign, Nodes.find, Ne.symm hv]
  | (k', c') :: rest => by
    have hkv : k ≠ v := Ne.symm hv
    unfold Nodes.assign
    split
    · simp only [Nodes.find, if_neg hkv]
    · split
      · rename_i heq
        have hk'v : k' ≠ v := heq ▸ hkv
        simp only [Nodes.find, if_neg hkv, if_neg hk'v]
      · simp only [Nodes.find]
        rw [Nodes.find_assign_ne c hv rest]

theorem Nodes.filter_key_eq_nil {k : String} :
    ∀ {l : Nodes}, (∀ e ∈ l, keyLess k e.1) → l.filter (fun e => decide (e.1 = k)) = []
  | [], _ => rfl
  | (k', c) :: rest, h => by
    have hk : k' ≠ k := by
      intro heq
      have := h (k', c) (List.mem_cons_self _ _)
      rw [heq] at this
      exact keyLess_irrefl k this
    rw [List.filter_cons_of_neg (by simpa using hk)]
    exact Nodes.filter_key_eq_nil (fun e he => h e (List.mem_cons_of_mem _ he))

theorem Nodes.filter_key_assign (k : String) (c : Challenge) :
    ∀ {l : Nodes}, l.Ordered →
      (Nodes.assign k c l).filter (fun e => decide (e.1 = k)) = [(k, c)]
  | [], _ => by simp [Nodes.assign]
  | (k', c') :: rest, h => by
    have h' := List.pairwise_cons.mp h
    unfold Nodes.assign
    split
    · rename_i hlt
      rw [List.filter_cons_of_pos (by simp)]
      congr 1
      apply Nodes.filter_key_eq_nil
      intro e he
      rcases List.mem_cons.mp he with he | he
      · subst he
        exact hlt
      · exact keyLess_trans hlt (h'.1 e he)
    · split
      · rename_i heq
        rw [List.filter_cons_of_pos (by simp)]
        congr 1
        exact Nodes.filter_key_eq_nil (fun e he => heq ▸ h'.1 e he)
      · rename_i hne
        rw [List.filter_cons_of_neg (by simpa using hne)]
        exact Nodes.filter_key_assign k c h'.2

theorem durationCastMinutes_ge_timeout_iff (d : Int) :
    durationCastMinutes d ≥ challengeTimeout ↔ d ≥ 600000000000 := by
  unfold durationCastMinutes challengeTimeout ticksPerMinute
  rcases le_or_lt 0 d with h | h
  · rw [Int.tdiv_eq_ediv h (by decide)]
    omega
  · have h1 : Int.tdiv d 60000000000 = -(Int.tdiv (-d) 60000000000) := by
      rw [Int.neg_tdiv]
      simp
    have h2 : 0 ≤ Int.tdiv (-d) 60000000000 := Int.tdiv_nonneg (by omega) (by decide)
    constructor
    · intro h3
      omega
    · intro h3
      omega

theorem isChallengeExpired_iff (now : Int) (c : Challenge) :
    isChallengeExpired now c = true ↔ now - c.createdAt ≥ 600000000000 := by
  unfold isChallengeExpired
  simp only [decide_eq_true_eq]
  exact durationCastMinutes_ge_timeout_iff _

theorem isChallengeExpired_eq_false_iff (now : Int) (c : Challenge) :
    isChallengeExpired now c = false ↔ now - c.createdAt < 600000000000 := by
  rw [← Bool.not_eq_true, isChallengeExpired_iff]
  omega

theorem checkAnswer_erases_entry (g : GameLogic) (U s : String) (c : Challenge)
    (h : g.activeChallenges.find U = some c) :
    (g.checkAnswer U s).2.activeChallenges.find U = none := by
  unfold GameLogic.checkAnswer
  rw [h]
  exact Nodes.find_erase_self U g.activeChallenges.ordered

theorem checkAnswer_of_find_none (g : GameLogic) (U s : String)
    (h : g.activeChallenges.find U = none) :
    g.checkAnswer U s = (false, g) := by
  unfold GameLogic.checkAnswer
  rw [h]

theorem cleanupLoop_const (now : Int) :
    ∀ (i : Nat) (l : Nodes),
      cleanupLoop (fun _ => now) i l =
        l.filter (fun e => decide (now - e.2.createdAt < 600000000000))
  | _, [] => rfl
  | i, (k, c) :: rest => by
    unfold cleanupLoop
    by_cases h : isChallengeExpired now c = true
    · rw [if_pos h]
      have h' : ¬ (now - c.createdAt < 600000000000) := by
        have := (isChallengeExpired_iff now c).mp h
        omega
      rw [List.filter_cons_of_neg (by simpa using h')]
      exact cleanupLoop_const now (i + 1) rest
    · rw [if_neg h]
      have h' : now - c.createdAt < 600000000000 :=
        (isChallengeExpired_eq_false_iff now c).mp (by simpa using h)
      rw [List.filter_cons_of_pos (by simpa using h')]
      rw [cleanupLoop_const now (i + 1) rest]

theorem Nodes.find_filter (p : String × Challenge → Bool) (k : String) :
    ∀ {l : Nodes}, l.Ordered →
      Nodes.find k (l.filter p) =
        match Nodes.find k l with
        | some c => if p (k, c) then some c else none
        | none => none
  | [], _ => rfl
  | (k', c) :: rest, h => by
    have h' := List.pairwise_cons.mp h
    by_cases hk : k' = k
    · subst hk
      simp only [Nodes.find, if_true]
      by_cases hp : p (k', c) = true
      · rw [List.filter_cons_of_pos hp, if_pos hp]
        simp [Nodes.find]
      · rw [List.filter_cons_of_neg hp, if_neg hp]
        apply Nodes.find_eq_none_of_all_greater
        intro e he
        exact h'.1 e (List.mem_filter.mp he).1
    · simp only [Nodes.find, if_neg hk]
      rw [← Nodes.find_filter p k h'.2]
      by_cases hp : p (k', c) = true
      · rw [List.filter_cons_of_pos hp]
        simp only [Nodes.find, if_neg hk]
      · rw [List.filter_cons_of_neg hp]

theorem getActiveChallenge_of_find_none (g : GameLogic) (now : Int) (U : String)
    (h : g.activeChallenges.find U = none) :
    g.getActiveChallenge now U = (none, g) := by
  unfold GameLogic.getActiveChallenge
  rw [h]

theorem getActiveChallenge_of_find_some (g : GameLogic) (now : Int) (U : String)
    (c : Challenge) (h : g.activeChallenges.find U = some c) :
    g.getActiveChallenge now U =
      (if now - c.createdAt < 600000000000 then some c else none, g) := by
  unfold GameLogic.getActiveChallenge
  rw [h]
  by_cases hlt : now - c.createdAt < 600000000000
  · have := (isChallengeExpired_eq_false_iff now c).mpr hlt
    simp [this, hlt]
  · have := (isChallengeExpired_iff now c).mpr (by omega)
    simp [this, hlt]

theorem Nodes.find_cleanupLoop (clock : Nat → Int) (k : String) :
    ∀ (i : Nat) {l : Nodes}, l.Ordered →
      Nodes.find k (cleanupLoop clock i l) = Nodes.find k l ∨
        Nodes.find k (cleanupLoop clock i l) = none
  | _, [], _ => Or.inl rfl
  | i, (k', c) :: rest, h => by
    have h' := List.pairwise_cons.mp h
    unfold cleanupLoop
    by_cases hk : k' = k
    · split
      · right
        apply Nodes.find_eq_none_of_all_greater
        intro e he
        exact hk ▸ h'.1 e ((cleanupLoop_sublist clock (i + 1) rest).subset he)
      · left
        simp only [Nodes.find, if_pos hk]
    · split
      · simp only [Nodes.find, if_neg hk]
        exact Nodes.find_cleanupLoop clock k (i + 1) h'.2
      · simp only [Nodes.find, if_neg hk]
        exact Nodes.find_cleanupLoop clock k (i + 1) h'.2

theorem Call.run_find (U : String) (g : GameLogic) (call : Call)
    (h : ¬ call.startsFor U) :
    (call.run g).activeChallenges.find U = g.activeChallenges.find U ∨
      (call.run g).activeChallenges.find U = none := by
  cases call with
  | startChallenge now userId prompt correctAnswer imageBase64 =>
    left
    have hne : U ≠ userId := fun e => h e.symm
    exact Nodes.find_assign_ne _ hne _
  | checkAnswer userId userAnswer =>
    show (g.checkAnswer userId userAnswer).2.activeChallenges.find U = _ ∨ _
    cases hf : g.activeChallenges.find userId with
    | none =>
      rw [checkAnswer_of_find_none g userId userAnswer hf]
      exact Or.inl rfl
    | some c =>
      by_cases hu : U = userId
      · right
        subst hu
        exact checkAnswer_erases_entry g U userAnswer c hf
      · left
        unfold GameLogic.checkAnswer
        rw [hf]
        exact Nodes.find_erase_ne hu _
  | getActiveChallenge now userId =>
    left
    show (g.getActiveChallenge now userId).2.activeChallenges.find U = _
    unfold GameLogic.getActiveChallenge
    split
    · split <;> rfl
    · rfl
  | cleanupExpiredChallenges clock =>
    exact Nodes.find_cleanupLoop clock U 0 g.activeChallenges.ordered

theorem runCalls_find (U : String) :
    ∀ (calls : List Call) (g : GameLogic), (∀ call ∈ calls, ¬ call.startsFor U) →
      (runCalls g calls).activeChallenges.find U = g.activeChallenges.find U ∨
        (runCalls g calls).activeChallenges.find U = none
  | [], _, _ => Or.inl rfl
  | call :: rest, g, h => by
    have hrest := runCalls_find U rest (call.run g)
      (fun c hc => h c (List.mem_cons_of_mem _ hc))
    have hcall := Call.run_find U g call (h call (List.mem_cons_self _ _))
    show (runCalls (call.run g) rest).activeChallenges.find U = _ ∨ _
    rcases hrest with hr | hr
    · rcases hcall with hc | hc
      · exact Or.inl (hr.trans hc)
      · exact Or.inr (hr.trans hc)
    · exact Or.inr hr

theorem cleanupLoop_eq_enumFrom (clock : Nat → Int) :
    ∀ (i : Nat) (l : Nodes),
      cleanupLoop clock i l =
        ((l.enumFrom i).filter
          (fun p => decide (clock p.1 - p.2.2.createdAt < 600000000000))).map Prod.snd
  | _, [] => rfl
  | i, (k, c) :: rest => by
    unfold cleanupLoop
    rw [List.enumFrom_cons]
    by_cases h : isChallengeExpired (clock i) c = true
    · have h' : ¬ (clock i - c.createdAt < 600000000000) := by
        have := (isChallengeExpired_iff (clock i) c).mp h
        omega
      rw [if_pos h, List.filter_cons_of_neg (by simpa using h')]
      exact cleanupLoop_eq_enumFrom clock (i + 1) rest
    · have h' : clock i - c.createdAt < 600000000000 :=
        (isChallengeExpired_eq_false_iff (clock i) c).mp (by simpa using h)
      rw [if_neg h, List.filter_cons_of_pos (by simpa using h'), List.map_cons]
      rw [cleanupLoop_eq_enumFrom clock (i + 1) rest]

theorem cleanupLoop_congr (clock clock' : Nat → Int) :
    ∀ (i : Nat) (l : Nodes), (∀ j, i ≤ j → j < i + l.length → clock j = clock' j) →
      cleanupLoop clock i l = cleanupLoop clock' i l
  | _, [], _ => rfl
  | i, (k, c) :: rest, h => by
    have hrest := cleanupLoop_congr clock clock' (i + 1) rest (fun j h₁ h₂ =>
      h j (by omega) (by simp only [List.length_cons]; omega))
    unfold cleanupLoop
    rw [h i (le_refl i) (by simp only [List.length_cons]; omega), hrest]

theorem Nodes.find_cleanupLoop_removed (clock : Nat → Int) (k : String) (c : Challenge) :
    ∀ (i : Nat) {l : Nodes}, l.Ordered → Nodes.find k l = some c →
      (∀ j, i ≤ j → j < i + l.length → clock j - c.createdAt ≥ 600000000000) →
      Nodes.find k (cleanupLoop clock i l) = none
  | _, [], _, hf, _ => by simp [Nodes.find] at hf
  | i, (k', c') :: rest, ho, hf, hclock => by
    have ho' := List.pairwise_cons.mp ho
    have hrange : ∀ j, i + 1 ≤ j → j < i + 1 + rest.length →
        clock j - c.createdAt ≥ 600000000000 := fun j h₁ h₂ =>
      hclock j (by omega) (by simp only [List.length_cons]; omega)
    unfold cleanupLoop
    by_cases hk : k' = k
    · simp only [Nodes.find, if_pos hk, Option.some.injEq] at hf
      subst hf
      have hexp : isChallengeExpired (clock i) c' = true :=
        (isChallengeExpired_iff (clock i) c').mpr
          (hclock i (le_refl i) (by simp only [List.length_cons]; omega))
      rw [if_pos hexp]
      apply Nodes.find_eq_none_of_all_greater
      intro e he
      exact hk ▸ ho'.1 e ((cleanupLoop_sublist clock (i + 1) rest).subset he)
    · simp only [Nodes.find, if_neg hk] at hf
      have ih := Nodes.find_cleanupLoop_removed clock k c (i + 1) ho'.2 hf hrange
      split
      · exact ih
      · simp only [Nodes.find, if_neg hk]
        exact ih

theorem Nodes.find_cleanupLoop_kept (clock : Nat → Int) (k : String) (c : Challenge) :
    ∀ (i : Nat) {l : Nodes}, Nodes.find k l = some c →
      (∀ j, i ≤ j → j < i + l.length → clock j - c.createdAt < 600000000000) →
      Nodes.find k (cleanupLoop clock i l) = some c
  | _, [], hf, _ => by simp [Nodes.find] at hf
  | i, (k', c') :: rest, hf, hclock => by
    have hrange : ∀ j, i + 1 ≤ j → j < i + 1 + rest.length →
        clock j - c.createdAt < 600000000000 := fun j h₁ h₂ =>
      hclock j (by omega) (by simp only [List.length_cons]; omega)
    unfold cleanupLoop
    by_cases hk : k' = k
    · simp only [Nodes.find, if_pos hk, Option.some.injEq] at hf
      subst hf
      have hyoung : ¬ isChallengeExpired (clock i) c' = true := by
        rw [isChallengeExpired_iff]
        have := hclock i (le_refl i) (by simp only [List.length_cons]; omega)
        omega
      rw [if_neg hyoung]
      simp only [Nodes.find, if_pos hk]
    · simp only [Nodes.find, if_neg hk] at hf
      have ih := Nodes.find_cleanupLoop_kept clock k c (i + 1) hf hrange
      split
      · exact ih
      · simp only [Nodes.find, if_neg hk]
        exact ih

/-! ## Lemmas on the decimal conversions -/

theorem digitChar_toNat {d : Nat} (h : d < 10) : (digitChar d).toNat = 48 + d := by
  interval_cases d <;> rfl

theorem isdigit_digitChar {d : Nat} (h : d < 10) : isdigit (digitChar d) = true := by
  unfold isdigit
  rw [digitChar_toNat h]
  simp
  omega

theorem digitValue_digitChar {d : Nat} (h : d < 10) : digitValue (digitChar d) = d := by
  unfold digitValue
  rw [digitChar_toNat h]
  omega

theorem decimalDigits_isdigit :
    ∀ (fuel n : Nat), ∀ c ∈ decimalDigits fuel n, isdigit c = true
  | 0, n, c, hc => by
    simp only [decimalDigits, List.mem_singleton] at hc
    subst hc
    exact isdigit_digitChar (Nat.mod_lt _ (by decide))
  | fuel + 1, n, c, hc => by
    unfold decimalDigits at hc
    split at hc
    · rename_i hlt
      simp only [List.mem_singleton] at hc
      subst hc
      exact isdigit_digitChar hlt
    · rcases List.mem_append.mp hc with h | h
      · exact decimalDigits_isdigit fuel (n / 10) c h
      · simp only [List.mem_singleton] at h
        subst h
        exact isdigit_digitChar (Nat.mod_lt _ (by decide))

theorem decimalDigits_ne_nil : ∀ (fuel n : Nat), decimalDigits fuel n ≠ []
  | 0, n => by simp [decimalDigits]
  | fuel + 1, n => by
    unfold decimalDigits
    split <;> simp

theorem digitsValue_append_singleton (xs : List Char) (c : Char) :
    digitsValue (xs ++ [c]) = digitsValue xs * 10 + digitValue c := by
  simp [digitsValue, List.foldl_append]

theorem digitsValue_decimalDigits :
    ∀ (fuel n : Nat), n < 10 ^ (fuel + 1) → digitsValue (decimalDigits fuel n) = n
  | 0, n, h => by
    have h' : n < 10 := by simpa using h
    simp only [decimalDigits, digitsValue, List.foldl, Nat.zero_mul, Nat.zero_add]
    rw [digitValue_digitChar (Nat.mod_lt _ (by decide))]
    exact Nat.mod_eq_of_lt h'
  | fuel + 1, n, h => by
    unfold decimalDigits
    split
    · rename_i hlt
      simp only [digitsValue, List.foldl, Nat.zero_mul, Nat.zero_add]
      exact digitValue_digitChar hlt
    · rw [digitsValue_append_singleton, digitValue_digitChar (Nat.mod_lt _ (by decide))]
      have hdiv : n / 10 < 10 ^ (fuel + 1) := by
        have : n < 10 ^ (fuel + 1) * 10 := by
          rw [← Nat.pow_succ]
          exact h
        exact Nat.div_lt_of_lt_mul (by rw [Nat.mul_comm]; exact this)
      rw [digitsValue_decimalDigits fuel (n / 10) hdiv]
      omega

theorem digitsValue_decimalDigits_self (n : Nat) : digitsValue (decimalDigits n n) = n :=
  digitsValue_decimalDigits n n
    (lt_of_lt_of_le (Nat.lt_pow_self (by decide) n) (Nat.pow_le_pow_right (by decide) (Nat.le_succ n)))

theorem isdigit_not_sign_or_space {c : Char} (h : isdigit c = true) :
    isspace c = false ∧ c ≠ '-' ∧ c ≠ '+' := by
  refine ⟨?_, ?_, ?_⟩
  · cases hs : isspace c with
    | false => rfl
    | true =>
      exfalso
      simp only [isspace, Bool.or_eq_true, decide_eq_true_eq] at hs
      rcases hs with ((((hs | hs) | hs) | hs) | hs) | hs <;>
        · subst hs
          revert h
          decide
  · rintro rfl
    revert h
    decide
  · rintro rfl
    revert h
    decide

theorem stoiSign_of_isdigit {c : Char} (rest : List Char) (h : isdigit c = true) :
    stoiSign (c :: rest) = (false, c :: rest) := by
  have hc := isdigit_not_sign_or_space h
  unfold stoiSign
  split
  · rename_i heq
    exact absurd (List.cons.inj heq).1 hc.2.1
  · rename_i heq
    exact absurd (List.cons.inj heq).1 hc.2.2
  · rfl

theorem stoi_digits (ds : List Char) (hne : ds ≠ []) (hall : ∀ c ∈ ds, isdigit c = true)
    (hrange : (digitsValue ds : Int) ≤ 2147483647) :
    stoi (String.mk ds) = .ok (digitsValue ds : Int) := by
  obtain ⟨c, rest, rfl⟩ := List.exists_cons_of_ne_nil hne
  have hc := isdigit_not_sign_or_space (hall c (List.mem_cons_self _ _))
  have htake : (c :: rest).takeWhile isdigit = c :: rest :=
    List.takeWhile_eq_self_iff.mpr hall
  have hdrop : (c :: rest).dropWhile isspace = c :: rest :=
    List.dropWhile_cons_of_neg (by simp [hc.1])
  have hnn : (0 : Int) ≤ (digitsValue (c :: rest) : Int) := Int.ofNat_nonneg _
  unfold stoi
  simp only [hdrop, stoiSign_of_isdigit rest (hall c (List.mem_cons_self _ _)), htake]
  rw [if_neg (by simp), if_neg (by simp; omega)]
  simp

theorem stoi_minus_digits (ds : List Char) (hne : ds ≠ []) (hall : ∀ c ∈ ds, isdigit c = true)
    (hrange : (digitsValue ds : Int) ≤ 2147483648) :
    stoi (String.mk ('-' :: ds)) = .ok (-(digitsValue ds : Int)) := by
  have htake : ds.takeWhile isdigit = ds := List.takeWhile_eq_self_iff.mpr hall
  have hdrop : ('-' :: ds).dropWhile isspace = '-' :: ds :=
    List.dropWhile_cons_of_neg (by decide)
  have hnn : (0 : Int) ≤ (digitsValue ds : Int) := Int.ofNat_nonneg _
  unfold stoi
  simp only [hdrop, stoiSign, htake]
  rw [if_neg hne, if_neg (by simp; omega)]
  simp

theorem stoi_to_string (n : Int) (hlo : -2147483648 ≤ n) (hhi : n ≤ 2147483647) :
    stoi (to_string n) = .ok n := by
  unfold to_string
  have hv := digitsValue_decimalDigits_self n.natAbs
  by_cases hneg : n < 0
  · rw [if_pos hneg, stoi_minus_digits _ (decimalDigits_ne_nil _ _)
      (decimalDigits_isdigit _ _) (by rw [hv]; omega), hv]
    congr 1
    omega
  · rw [if_neg hneg, stoi_digits _ (decimalDigits_ne_nil _ _)
      (decimalDigits_isdigit _ _) (by rw [hv]; omega), hv]
    congr 1
    omega

/-! ## The claims on `GameLogic` -/

/-- C1: when the store has an entry for `U`, `checkAnswer U s` returns true exactly when `s`
is the very string stored as `correctAnswer`; afterwards the store has no entry for `U` and
the entry of every other user is as before. -/
theorem checkAnswer_present (g : GameLogic) (U s : String) (c : Challenge)
    (h : g.activeChallenges.find U = some c) :
    ((g.checkAnswer U s).1 = true ↔ s = c.correctAnswer) ∧
    (g.checkAnswer U s).2.activeChallenges.find U = none ∧
    ∀ V, V ≠ U →
      (g.checkAnswer U s).2.activeChallenges.find V = g.activeChallenges.find V := by
  unfold GameLogic.checkAnswer
  rw [h]
  refine ⟨?_, ?_, ?_⟩
  · simp only [decide_eq_true_eq]
    exact eq_comm
  · exact Nodes.find_erase_self U g.activeChallenges.ordered
  · intro V hV
    exact Nodes.find_erase_ne hV _

/-- Witness of C1: user "42" holds a challenge whose answer is "first"; the differently
capitalised answer "First" is judged wrong, and the entry is gone all the same. -/
theorem checkAnswer_present_witness :
    scenarioStore.activeChallenges.find "42" =
        some ⟨"42", "Which is bigger?", "first", "<bytes>", 0⟩ ∧
    (((scenarioStore.checkAnswer "42" "First").1 = true ↔ "First" = "first") ∧
      (scenarioStore.checkAnswer "42" "First").2.activeChallenges.find "42" = none ∧
      ∀ V, V ≠ "42" →
        (scenarioStore.checkAnswer "42" "First").2.activeChallenges.find V =
          scenarioStore.activeChallenges.find V) :=
  ⟨by decide,
    checkAnswer_present scenarioStore "42" "First"
      ⟨"42", "Which is bigger?", "first", "<bytes>", 0⟩ (by decide)⟩

/-- C2: after `startChallenge U p a img`, `checkAnswer U a` returns true and an immediately
repeated `checkAnswer U b` returns false for every `b`; and on every store a
`checkAnswer U b` that directly follows a `checkAnswer U s` returns false. -/
theorem checkAnswer_consumes (g : GameLogic) (now : Int) (U p a img : String) :
    ((g.startChallenge now U p a img).checkAnswer U a).1 = true ∧
    (∀ b, (((g.startChallenge now U p a img).checkAnswer U a).2.checkAnswer U b).1 = false) ∧
    (∀ (g' : GameLogic) (s b : String), ((g'.checkAnswer U s).2.checkAnswer U b).1 = false) := by
  have second : ∀ (g' : GameLogic) (s b : String),
      ((g'.checkAnswer U s).2.checkAnswer U b).1 = false := by
    intro g' s b
    have gone : (g'.checkAnswer U s).2.activeChallenges.find U = none := by
      cases hf : g'.activeChallenges.find U with
      | none =>
        rw [checkAnswer_of_find_none g' U s hf]
        exact hf
      | some c => exact checkAnswer_erases_entry g' U s c hf
    rw [checkAnswer_of_find_none _ U b gone]
  refine ⟨?_, fun b => second _ a b, second⟩
  have hfind : (g.startChallenge now U p a img).activeChallenges.find U =
      some ⟨U, p, a, img, now⟩ := Nodes.find_assign_self U _ _
  unfold GameLogic.checkAnswer
  rw [hfind]
  simp

/-- The scenario of C2: `startChallenge("42", "Which is bigger?", "first", "<bytes>")`, then
`checkAnswer("42", "first")` is true and its repetition is false. -/
theorem checkAnswer_consumes_witness :
    (scenarioStore.checkAnswer "42" "first").1 = true ∧
    ((scenarioStore.checkAnswer "42" "first").2.checkAnswer "42" "first").1 = false :=
  ⟨(checkAnswer_consumes GameLogic.new 0 "42" "Which is bigger?" "first" "<bytes>").1,
    (checkAnswer_consumes GameLogic.new 0 "42" "Which is bigger?" "first" "<bytes>").2.1
      "first"⟩

/-- C3: when the store has no entry for `U`, `checkAnswer U s` returns false and the store
it leaves is the store it was given; the method has no failing path. -/
theorem checkAnswer_absent (g : GameLogic) (U s : String)
    (h : g.activeChallenges.find U = none) :
    g.checkAnswer U s = (false, g) :=
  checkAnswer_of_find_none g U s h

/-- Witness of C3: user "7" has no entry in the scenario store. -/
theorem checkAnswer_absent_witness :
    scenarioStore.activeChallenges.find "7" = none ∧
    scenarioStore.checkAnswer "7" "first" = (false, scenarioStore) :=
  ⟨by decide, checkAnswer_absent scenarioStore "7" "first" (by decide)⟩

/-- C4: after `startChallenge U p a img` at clock reading `now` the store holds exactly one
node with key `U`, its value has the fields `U, p, a, img, now` and nothing else, and the
entry of every other user is as before. -/
theorem startChallenge_overwrites (g : GameLogic) (now : Int) (U p a img : String) :
    (g.startChallenge now U p a img).activeChallenges.nodes.filter
        (fun e => decide (e.1 = U)) = [(U, ⟨U, p, a, img, now⟩)] ∧
    (g.startChallenge now U p a img).activeChallenges.find U = some ⟨U, p, a, img, now⟩ ∧
    ∀ V, V ≠ U →
      (g.startChallenge now U p a img).activeChallenges.find V =
        g.activeChallenges.find V :=
  ⟨Nodes.filter_key_assign U _ g.activeChallenges.ordered,
    Nodes.find_assign_self U _ _,
    fun _ hV => Nodes.find_assign_ne _ hV _⟩

/-- Witness of C4: a second challenge for "42" replaces the first, and "7" still has none. -/
theorem startChallenge_overwrites_witness :
    (scenarioStore.startChallenge 5 "42" "p" "second" "i").activeChallenges.nodes =
        [("42", ⟨"42", "p", "second", "i", 5⟩)] ∧
    (scenarioStore.startChallenge 5 "42" "p" "second" "i").activeChallenges.find "7" =
        scenarioStore.activeChallenges.find "7" :=
  ⟨by decide, (startChallenge_overwrites scenarioStore 5 "42" "p" "second" "i").2.2 "7"
    (by decide)⟩

/-- C5: `getActiveChallenge U` at clock reading `now` returns the entry of `U` if and only
if the store has one and it is younger than 10 minutes (600000000000 ticks), returns absent
otherwise, and leaves the store as it was; an expired entry is reported absent and is still
in the store afterwards. -/
theorem getActiveChallenge_spec (g : GameLogic) (now : Int) (U : String) :
    (g.getActiveChallenge now U).2 = g ∧
    (∀ c, (g.getActiveChallenge now U).1 = some c ↔
      (g.activeChallenges.find U = some c ∧ now - c.createdAt < 600000000000)) ∧
    ((g.getActiveChallenge now U).1 = none ↔
      ¬ ∃ c, g.activeChallenges.find U = some c ∧ now - c.createdAt < 600000000000) ∧
    (∀ c, g.activeChallenges.find U = some c → now - c.createdAt ≥ 600000000000 →
      (g.getActiveChallenge now U).1 = none ∧
      (g.getActiveChallenge now U).2.activeChallenges.find U = some c) := by
  cases hf : g.activeChallenges.find U with
  | none =>
    rw [getActiveChallenge_of_find_none g now U hf]
    simp
  | some d =>
    rw [getActiveChallenge_of_find_some g now U d hf]
    by_cases hlt : now - d.createdAt < 600000000000
    · rw [if_pos hlt]
      dsimp only
      refine ⟨rfl, ?_, ?_, ?_⟩
      · intro c
        constructor
        · intro h
          cases h
          exact ⟨rfl, hlt⟩
        · intro h
          exact h.1
      · constructor
        · intro h
          cases h
        · intro h
          exact absurd ⟨d, rfl, hlt⟩ h
      · intro c hc hge
        cases hc
        omega
    · rw [if_neg hlt]
      dsimp only
      refine ⟨rfl, ?_, ?_, ?_⟩
      · intro c
        constructor
        · intro h
          cases h
        · intro h
          have := h.1
          cases this
          exact absurd h.2 hlt
      · constructor
        · rintro _ ⟨c, hc, hc'⟩
          cases hc
          exact hlt hc'
        · intro _
          rfl
      · intro c hc _
        exact ⟨rfl, by rw [hf, hc]⟩

/-- Witness of C5: the scenario entry of "42" (created at 0) is returned one tick before
the 10 minutes are over, and reported absent, though still stored, at 10 minutes sharp. -/
theorem getActiveChallenge_spec_witness :
    (scenarioStore.getActiveChallenge 599999999999 "42").1 =
        some ⟨"42", "Which is bigger?", "first", "<bytes>", 0⟩ ∧
    ((scenarioStore.getActiveChallenge 600000000000 "42").1 = none ∧
      (scenarioStore.getActiveChallenge 600000000000 "42").2.activeChallenges.find "42" =
        some ⟨"42", "Which is bigger?", "first", "<bytes>", 0⟩) :=
  ⟨by decide,
    (getActiveChallenge_spec scenarioStore 600000000000 "42").2.2.2
      ⟨"42", "Which is bigger?", "first", "<bytes>", 0⟩ (by decide) (by decide)⟩

/-- C6, as the code has it: take the latest `startChallenge U p a img`, made at clock
reading `now`, and any calls after it (none of them a `startChallenge` for `U`) that have
not removed the entry of `U`. Then `getActiveChallenge U` at clock reading `t` returns that
exact challenge when `t - now` is less than 10 minutes (600000000000 ticks), and absent
from 10 minutes on, whether or not a sweep has run. -/
theorem getActiveChallenge_after_start (g : GameLogic) (now : Int) (U p a img : String)
    (calls : List Call) (t : Int)
    (hlatest : ∀ call ∈ calls, ¬ call.startsFor U)
    (hkept : (runCalls (g.startChallenge now U p a img) calls).activeChallenges.find U ≠ none) :
    ((runCalls (g.startChallenge now U p a img) calls).getActiveChallenge t U).1 =
      if t - now < 600000000000 then some ⟨U, p, a, img, now⟩ else none := by
  have hstart : (g.startChallenge now U p a img).activeChallenges.find U =
      some ⟨U, p, a, img, now⟩ := Nodes.find_assign_self U _ _
  have hfind : (runCalls (g.startChallenge now U p a img) calls).activeChallenges.find U =
      some ⟨U, p, a, img, now⟩ := by
    rcases runCalls_find U calls (g.startChallenge now U p a img) hlatest with h | h
    · exact h.trans hstart
    · exact absurd h hkept
  rw [getActiveChallenge_of_find_some _ t U _ hfind]

/-- Witness of C6 as amended: after the scenario's `startChallenge` for "42" at 0, a wrong
answer of user "7", a challenge for user "7" and a sweep at 9 minutes leave the entry of
"42"; it is returned at 9 minutes 59 seconds and absent at 10 minutes. -/
theorem getActiveChallenge_after_start_witness :
    ((runCalls (GameLogic.new.startChallenge 0 "42" "Which is bigger?" "first" "<bytes>")
        [Call.checkAnswer "7" "first", Call.startChallenge 1 "7" "p" "equal" "i",
          Call.cleanupExpiredChallenges (fun _ => 540000000000)]).getActiveChallenge
        599000000000 "42").1 = some ⟨"42", "Which is bigger?", "first", "<bytes>", 0⟩ ∧
    ((runCalls (GameLogic.new.startChallenge 0 "42" "Which is bigger?" "first" "<bytes>")
        [Call.checkAnswer "7" "first", Call.startChallenge 1 "7" "p" "equal" "i",
          Call.cleanupExpiredChallenges (fun _ => 540000000000)]).getActiveChallenge
        600000000000 "42").1 = none :=
  ⟨getActiveChallenge_after_start GameLogic.new 0 "42" "Which is bigger?" "first" "<bytes>"
      [Call.checkAnswer "7" "first", Call.startChallenge 1 "7" "p" "equal" "i",
        Call.cleanupExpiredChallenges (fun _ => 540000000000)] 599000000000
      (by simp [Call.startsFor]) (by decide),
    getActiveChallenge_after_start GameLogic.new 0 "42" "Which is bigger?" "first" "<bytes>"
      [Call.checkAnswer "7" "first", Call.startChallenge 1 "7" "p" "equal" "i",
        Call.cleanupExpiredChallenges (fun _ => 540000000000)] 600000000000
      (by simp [Call.startsFor]) (by decide)⟩

/-- C6 as the specification words it fails: the scenario's challenge for "42" is started at
0; with no call at all after it (so no `checkAnswer` and no sweep has removed the entry,
which is still in the store) `getActiveChallenge "42"` at 10 minutes returns absent. -/
theorem getActiveChallenge_after_start_counterexample :
    (runCalls (GameLogic.new.startChallenge 0 "42" "Which is bigger?" "first" "<bytes>")
        []).activeChallenges.find "42" =
      some ⟨"42", "Which is bigger?", "first", "<bytes>", 0⟩ ∧
    ((runCalls (GameLogic.new.startChallenge 0 "42" "Which is bigger?" "first" "<bytes>")
        []).getActiveChallenge 600000000000 "42").1 = none ∧
    ((runCalls (GameLogic.new.startChallenge 0 "42" "Which is bigger?" "first" "<bytes>")
        []).getActiveChallenge 600000000000 "42").1 ≠
      some ⟨"42", "Which is bigger?", "first", "<bytes>", 0⟩ := by
  decide

/-- C7, as the code has it: `cleanupExpiredChallenges` judges each entry at the reading of
the clock that `isChallengeExpired` takes when the loop visits it (`clock j` for the entry at
place `j` of the iteration order), so the store after the sweep is the store before
restricted to the entries younger than 10 minutes (600000000000 ticks) at their own reading.
An entry that is 10 minutes old or more at a time `t0` not after the readings of the sweep,
10 minutes sharp included, is removed and `getActiveChallenge` reports it absent at every
time; an entry younger than 10 minutes at a time `t1` not before the readings is kept with
all its fields. When the clock stands at `now` throughout the sweep, the store after is the
store before restricted to the entries with `now - createdAt` less than 10 minutes. -/
theorem cleanupExpiredChallenges_readings (g : GameLogic) (clock : Nat → Int) :
    (g.cleanupExpiredChallenges clock).activeChallenges.nodes =
      ((g.activeChallenges.nodes.enum.filter
        (fun p => decide (clock p.1 - p.2.2.createdAt < 600000000000))).map Prod.snd) ∧
    (∀ U c t0, g.activeChallenges.find U = some c →
      (∀ j, j < g.activeChallenges.nodes.length → t0 ≤ clock j) →
      t0 - c.createdAt ≥ 600000000000 →
      (g.cleanupExpiredChallenges clock).activeChallenges.find U = none ∧
      ∀ t, ((g.cleanupExpiredChallenges clock).getActiveChallenge t U).1 = none) ∧
    (∀ U c t1, g.activeChallenges.find U = some c →
      (∀ j, j < g.activeChallenges.nodes.length → clock j ≤ t1) →
      t1 - c.createdAt < 600000000000 →
      (g.cleanupExpiredChallenges clock).activeChallenges.find U = some c) ∧
    (∀ now, (∀ j, j < g.activeChallenges.nodes.length → clock j = now) →
      (g.cleanupExpiredChallenges clock).activeChallenges.nodes =
        g.activeChallenges.nodes.filter
          (fun e => decide (now - e.2.createdAt < 600000000000))) := by
  refine ⟨cleanupLoop_eq_enumFrom clock 0 _, ?_, ?_, ?_⟩
  · intro U c t0 hc hclock hold
    have hgone : (g.cleanupExpiredChallenges clock).activeChallenges.find U = none :=
      Nodes.find_cleanupLoop_removed clock U c 0 g.activeChallenges.ordered hc
        (fun j _ hj => by
          have := hclock j (by omega)
          omega)
    exact ⟨hgone, fun t => by rw [getActiveChallenge_of_find_none _ t U hgone]⟩
  · intro U c t1 hc hclock hyoung
    exact Nodes.find_cleanupLoop_kept clock U c 0 hc
      (fun j _ hj => by
        have := hclock j (by omega)
        omega)
  · intro now hclock
    show cleanupLoop clock 0 g.activeChallenges.nodes = _
    rw [cleanupLoop_congr clock (fun _ => now) 0 _ (fun j _ hj => hclock j (by omega))]
    exact cleanupLoop_const now 0 _

/-- Witness of C7 as amended: of two entries created at 0 and at 1 minute, a sweep whose
readings are 10 minutes and 10 minutes plus one tick removes the first (10 minutes old at
the start of the sweep) and keeps the second (younger than 10 minutes at its end). -/
theorem cleanupExpiredChallenges_readings_witness :
    (((GameLogic.new.startChallenge 0 "7" "p" "equal" "i").startChallenge 60000000000
        "42" "q" "first" "j").cleanupExpiredChallenges
          (fun j => 600000000000 + j)).activeChallenges.find "7" = none ∧
    (((GameLogic.new.startChallenge 0 "7" "p" "equal" "i").startChallenge 60000000000
        "42" "q" "first" "j").cleanupExpiredChallenges
          (fun j => 600000000000 + j)).activeChallenges.find "42" =
      some ⟨"42", "q", "first", "j", 60000000000⟩ :=
  ⟨((cleanupExpiredChallenges_readings
      ((GameLogic.new.startChallenge 0 "7" "p" "equal" "i").startChallenge 60000000000
        "42" "q" "first" "j") (fun j => 600000000000 + j)).2.1 "7" ⟨"7", "p", "equal", "i", 0⟩
      600000000000 (by decide) (fun j _ => by omega) (by decide)).1,
    (cleanupExpiredChallenges_readings
      ((GameLogic.new.startChallenge 0 "7" "p" "equal" "i").startChallenge 60000000000
        "42" "q" "first" "j") (fun j => 600000000000 + j)).2.2.1 "42"
      ⟨"42", "q", "first", "j", 60000000000⟩ 600000000001 (by decide)
      (fun j hj => by
        have hlen : j < 2 := hj
        omega)
      (by decide)⟩

/-- C7 as the specification words it fails when the clock moves during the sweep. The store
holds "a", created at 0, and "b", created at 50; the sweep reads the clock at 599999999999
for "a" and at 600000000100 for "b". At the first reading both entries are younger than 10
minutes, yet "b" is removed; and for no time `now` at all is the store after the sweep the
store before restricted to the entries with `now - createdAt` less than 10 minutes. -/
theorem cleanupExpiredChallenges_counterexample :
    ((GameLogic.new.startChallenge 0 "a" "p" "first" "i").startChallenge 50
        "b" "q" "equal" "j").activeChallenges.nodes =
      [("a", ⟨"a", "p", "first", "i", 0⟩), ("b", ⟨"b", "q", "equal", "j", 50⟩)] ∧
    (599999999999 - 0 < (600000000000 : Int) ∧ 599999999999 - 50 < (600000000000 : Int)) ∧
    (((GameLogic.new.startChallenge 0 "a" "p" "first" "i").startChallenge 50
        "b" "q" "equal" "j").cleanupExpiredChallenges
          (fun j => if j = 0 then 599999999999 else 600000000100)).activeChallenges.nodes =
      [("a", ⟨"a", "p", "first", "i", 0⟩)] ∧
    (∀ now : Int,
      (((GameLogic.new.startChallenge 0 "a" "p" "first" "i").startChallenge 50
        "b" "q" "equal" "j").cleanupExpiredChallenges
          (fun j => if j = 0 then 599999999999 else 600000000100)).activeChallenges.nodes ≠
        ((GameLogic.new.startChallenge 0 "a" "p" "first" "i").startChallenge 50
          "b" "q" "equal" "j").activeChallenges.nodes.filter
            (fun e => decide (now - e.2.createdAt < 600000000000))) := by
  have hbefore : ((GameLogic.new.startChallenge 0 "a" "p" "first" "i").startChallenge 50
      "b" "q" "equal" "j").activeChallenges.nodes =
      [("a", ⟨"a", "p", "first", "i", 0⟩), ("b", ⟨"b", "q", "equal", "j", 50⟩)] := by
    decide
  have hafter : (((GameLogic.new.startChallenge 0 "a" "p" "first" "i").startChallenge 50
      "b" "q" "equal" "j").cleanupExpiredChallenges
        (fun j => if j = 0 then 599999999999 else 600000000100)).activeChallenges.nodes =
      [("a", ⟨"a", "p", "first", "i", 0⟩)] := by
    decide
  refine ⟨hbefore, ⟨by decide, by decide⟩, hafter, ?_⟩
  intro now h
  rw [hafter, hbefore] at h
  by_cases ha : now - 0 < 600000000000
  · by_cases hb : now - 50 < 600000000000
    · rw [List.filter_cons_of_pos (by simpa using ha),
        List.filter_cons_of_pos (by simpa using hb)] at h
      simp at h
    · omega
  · rw [List.filter_cons_of_neg (by simpa using ha)] at h
    by_cases hb : now - 50 < 600000000000
    · rw [List.filter_cons_of_pos (by simpa using hb)] at h
      simp at h
    · rw [List.filter_cons_of_neg (by simpa using hb)] at h
      simp at h

/-! ## Lemmas on the bot -/

theorem thenDo_snd_prop {α β : Type} (P : TelegramBot → Prop)
    (first : Except String α × TelegramBot)
    (next : α → TelegramBot → Except String β × TelegramBot)
    (h₁ : P first.2) (h₂ : ∀ a b, P b → P (next a b).2) : P (thenDo first next).2 := by
  obtain ⟨out, b⟩ := first
  cases out with
  | error what => exact h₁
  | ok a => exact h₂ a b h₁

theorem catchDo_snd_prop {α : Type} (P : TelegramBot → Prop)
    (tried : Except String α × TelegramBot)
    (handler : String → TelegramBot → Except String α × TelegramBot)
    (h₁ : P tried.2) (h₂ : ∀ w b, P b → P (handler w b).2) : P (catchDo tried handler).2 := by
  obtain ⟨out, b⟩ := tried
  cases out with
  | error what => exact h₂ what b h₁
  | ok a => exact h₁

theorem TelegramBot.makeRequest_snd (bot : TelegramBot) (env : Env) (request : Request) :
    (bot.makeRequest env request).2 =
      { bot with effects := bot.effects ++ [Effect.makeRequest request] } := by
  unfold TelegramBot.makeRequest
  cases env.transport bot.effects.length request <;> rfl

theorem TelegramBot.sendMessage_snd (bot : TelegramBot) (env : Env) (chatId text : String) :
    (bot.sendMessage env chatId text).2 =
      { bot with effects := bot.effects ++ [Effect.makeRequest (.sendMessage chatId text)] } := by
  unfold TelegramBot.sendMessage TelegramBot.makeRequest
  cases env.transport bot.effects.length (.sendMessage chatId text) <;> rfl

theorem TelegramBot.sendPhotoByUrl_snd (bot : TelegramBot) (env : Env)
    (chatId photoUrl caption : String) :
    (bot.sendPhotoByUrl env chatId photoUrl caption).2 =
      { bot with
        effects := bot.effects ++
          [Effect.makeRequest (.sendPhoto chatId photoUrl
            (if caption = "" then none else some caption) none)] } := by
  unfold TelegramBot.sendPhotoByUrl TelegramBot.makeRequest
  dsimp only
  cases env.transport bot.effects.length
    (.sendPhoto chatId photoUrl (if caption = "" then none else some caption) none) <;> rfl

theorem TelegramBot.sendIllusionChallengeTry_lastUpdateId (bot : TelegramBot) (env : Env)
    (chatId : String) (cursor : String) (h : bot.lastUpdateId = cursor) :
    (bot.sendIllusionChallengeTry env chatId).2.lastUpdateId = cursor := by
  unfold TelegramBot.sendIllusionChallengeTry
  apply thenDo_snd_prop (fun b => b.lastUpdateId = cursor) _ _ h
  intro promptResponse b1 h1
  split
  · rw [TelegramBot.sendMessage_snd]
    exact h1
  · apply thenDo_snd_prop (fun b => b.lastUpdateId = cursor) _ _ h1
    intro base64Image b2 h2
    split
    · rw [TelegramBot.sendMessage_snd]
      exact h2
    · apply thenDo_snd_prop (fun b => b.lastUpdateId = cursor)
      · rw [TelegramBot.makeRequest_snd]
        exact h2
      · intro _ b4 h4
        exact h4

theorem TelegramBot.sendIllusionChallenge_lastUpdateId (bot : TelegramBot) (env : Env)
    (chatId : String) (cursor : String) (h : bot.lastUpdateId = cursor) :
    (bot.sendIllusionChallenge env chatId).2.lastUpdateId = cursor := by
  unfold TelegramBot.sendIllusionChallenge
  apply catchDo_snd_prop (fun b => b.lastUpdateId = cursor)
  · exact TelegramBot.sendIllusionChallengeTry_lastUpdateId bot env chatId cursor h
  · intro w b hb
    rw [TelegramBot.sendMessage_snd]
    exact hb

theorem TelegramBot.handleCallbackQuery_lastUpdateId (bot : TelegramBot) (env : Env)
    (callbackQuery : CallbackQuery) (cursor : String) (h : bot.lastUpdateId = cursor) :
    (bot.handleCallbackQuery env callbackQuery).2.lastUpdateId = cursor := by
  unfold TelegramBot.handleCallbackQuery
  apply thenDo_snd_prop (fun b => b.lastUpdateId = cursor)
  · rw [TelegramBot.makeRequest_snd]
    exact h
  · intro _ b1 h1
    dsimp only
    split
    · rw [TelegramBot.sendMessage_snd]
      exact h1
    · rw [TelegramBot.sendMessage_snd]
      exact h1

theorem TelegramBot.processMessage_lastUpdateId (bot : TelegramBot) (env : Env)
    (chatId text : String) (cursor : String) (h : bot.lastUpdateId = cursor) :
    (bot.processMessage env chatId text).2.lastUpdateId = cursor := by
  unfold TelegramBot.processMessage
  split
  · rw [TelegramBot.sendMessage_snd]
    exact h
  · split
    · rw [TelegramBot.sendMessage_snd]
      exact h
    · split
      · exact TelegramBot.sendIllusionChallenge_lastUpdateId bot env chatId cursor h
      · split
        · rw [TelegramBot.sendPhotoByUrl_snd]
          exact h
        · rw [TelegramBot.sendMessage_snd]
          exact h

theorem TelegramBot.handleMessage_lastUpdateId (bot : TelegramBot) (env : Env)
    (update : Update) (cursor : String) (h : bot.lastUpdateId = cursor) :
    (bot.handleMessage env update).2.lastUpdateId = cursor := by
  unfold TelegramBot.handleMessage
  split
  · split
    · exact TelegramBot.processMessage_lastUpdateId bot env _ _ cursor h
    · exact h
  · exact h

theorem TelegramBot.handleUpdate_lastUpdateId (bot : TelegramBot) (env : Env)
    (update : Update) :
    (bot.handleUpdate env update).2.lastUpdateId = (bot.storeUpdateId update).lastUpdateId := by
  unfold TelegramBot.handleUpdate
  apply thenDo_snd_prop (fun b => b.lastUpdateId = (bot.storeUpdateId update).lastUpdateId)
  · exact TelegramBot.handleMessage_lastUpdateId _ env update _ rfl
  · intro _ b2 h2
    split
    · exact TelegramBot.handleCallbackQuery_lastUpdateId b2 env _ _ h2
    · exact h2

theorem foldl_storeUpdateId_lastUpdateId :
    ∀ (updates : List Update) (b₁ b₂ : TelegramBot), b₁.lastUpdateId = b₂.lastUpdateId →
      (updates.foldl TelegramBot.storeUpdateId b₁).lastUpdateId =
        (updates.foldl TelegramBot.storeUpdateId b₂).lastUpdateId
  | [], _, _, h => h
  | update :: rest, b₁, b₂, h => by
    apply foldl_storeUpdateId_lastUpdateId rest
    unfold TelegramBot.storeUpdateId
    cases update.update_id with
    | none => exact h
    | some id => rfl

/-- The cursor after a batch that was processed to its end: each update that has an id
overwrites it in turn. -/
theorem TelegramBot.handleUpdates_lastUpdateId (env : Env) :
    ∀ (updates : List Update) (bot : TelegramBot),
      (bot.handleUpdates env updates).1 = .ok () →
      (bot.handleUpdates env updates).2.lastUpdateId =
        (updates.foldl TelegramBot.storeUpdateId bot).lastUpdateId
  | [], _, _ => rfl
  | update :: rest, bot, hok => by
    unfold TelegramBot.handleUpdates at hok ⊢
    have hcur := TelegramBot.handleUpdate_lastUpdateId bot env update
    generalize bot.handleUpdate env update = r at hok hcur ⊢
    obtain ⟨out, b⟩ := r
    cases out with
    | error what => cases hok
    | ok u =>
      show (b.handleUpdates env rest).2.lastUpdateId = _
      rw [TelegramBot.handleUpdates_lastUpdateId env rest b hok]
      show (rest.foldl TelegramBot.storeUpdateId b).lastUpdateId =
        (rest.foldl TelegramBot.storeUpdateId (bot.storeUpdateId update)).lastUpdateId
      exact foldl_storeUpdateId_lastUpdateId rest b (bot.storeUpdateId update) hcur

theorem foldl_storeUpdateId_eq (updates : List Update) (bot : TelegramBot) :
    (updates.foldl TelegramBot.storeUpdateId bot).lastUpdateId =
      match (updates.filterMap (fun u => u.update_id)).getLast? with
      | some id => to_string (toInt32 id)
      | none => bot.lastUpdateId := by
  induction updates using List.reverseRecOn with
  | nil => rfl
  | append_singleton init update ih =>
    rw [List.foldl_append, List.filterMap_append]
    simp only [List.foldl, List.filterMap]
    unfold TelegramBot.storeUpdateId
    cases hid : update.update_id with
    | none => simpa using ih
    | some id => simp

theorem foldl_max_le (last : Int) :
    ∀ (ids : List Int) (prev : Int), prev ≤ last → (∀ id ∈ ids, id ≤ last) →
      ids.foldl max prev ≤ last
  | [], _, h, _ => h
  | id :: rest, prev, h, hall =>
    foldl_max_le last rest (max prev id)
      (max_le h (hall id (List.mem_cons_self _ _)))
      (fun x hx => hall x (List.mem_cons_of_mem _ hx))

theorem le_foldl_max_init : ∀ (ids : List Int) (prev : Int), prev ≤ ids.foldl max prev
  | [], _ => le_refl _
  | id :: rest, prev => le_trans (le_max_left prev id) (le_foldl_max_init rest (max prev id))

theorem le_foldl_max_of_mem :
    ∀ (ids : List Int) (prev x : Int), x ∈ ids → x ≤ ids.foldl max prev
  | id :: rest, prev, x, hx => by
    rcases List.mem_cons.mp hx with h | h
    · subst h
      exact le_trans (le_max_right prev x) (le_foldl_max_init rest (max prev x))
    · exact le_foldl_max_of_mem rest (max prev id) x h

theorem toInt32_of_int {n : Int} (hlo : -2147483648 ≤ n) (hhi : n ≤ 2147483647) :
    toInt32 n = n := by
  unfold toInt32
  omega

/-! ## The claims on `TelegramBot` -/

/-- C8, as the code has it: after `handleUpdates` has processed a batch to its end, the
cursor is the id of the last update of the batch that carries one, whatever the ids before
it and the cursor before the batch were, and it is left alone by a batch without ids.
Hence the cursor is the maximum of a previous value `prev` and all the ids of the batch
when the last id is the largest of them, as in [5, 3, 7]. -/
theorem handleUpdates_cursor (bot : TelegramBot) (env : Env) (updates : List Update)
    (hok : (bot.handleUpdates env updates).1 = .ok ()) :
    (∀ last, (updates.filterMap (fun u => u.update_id)).getLast? = some last →
      (bot.handleUpdates env updates).2.lastUpdateId = to_string (toInt32 last)) ∧
    (updates.filterMap (fun u => u.update_id) = [] →
      (bot.handleUpdates env updates).2.lastUpdateId = bot.lastUpdateId) ∧
    (∀ last prev, (updates.filterMap (fun u => u.update_id)).getLast? = some last →
      -2147483648 ≤ last → last ≤ 2147483647 → prev ≤ last →
      (∀ id ∈ updates.filterMap (fun u => u.update_id), id ≤ last) →
      stoi (bot.handleUpdates env updates).2.lastUpdateId =
        .ok ((updates.filterMap (fun u => u.update_id)).foldl max prev)) := by
  have hcur := foldl_storeUpdateId_eq updates bot
  rw [← TelegramBot.handleUpdates_lastUpdateId env updates bot hok] at hcur
  refine ⟨?_, ?_, ?_⟩
  · intro last hlast
    rw [hcur, hlast]
  · intro hnil
    rw [hcur, hnil]
    rfl
  · intro last prev hlast hlo hhi hprev hall
    rw [hcur, hlast]
    dsimp only
    rw [toInt32_of_int hlo hhi, stoi_to_string last hlo hhi]
    congr 1
    apply le_antisymm
    · exact le_foldl_max_of_mem _ prev last (List.mem_of_mem_getLast? hlast)
    · exact foldl_max_le last _ prev hprev hall

/-- Witness of C8 as amended, the scenario of the specification: the batch with ids
[5, 3, 7], processed in that order by a fresh bot, ends with cursor 7. -/
theorem handleUpdates_cursor_witness :
    (TelegramBot.new.handleUpdates idleEnv [bareUpdate 5, bareUpdate 3, bareUpdate 7]).1 =
        .ok () ∧
    (TelegramBot.new.handleUpdates idleEnv
        [bareUpdate 5, bareUpdate 3, bareUpdate 7]).2.lastUpdateId = "7" ∧
    stoi (TelegramBot.new.handleUpdates idleEnv
        [bareUpdate 5, bareUpdate 3, bareUpdate 7]).2.lastUpdateId = .ok 7 :=
  ⟨rfl,
    (handleUpdates_cursor TelegramBot.new idleEnv [bareUpdate 5, bareUpdate 3, bareUpdate 7]
      rfl).1 7 rfl,
    (handleUpdates_cursor TelegramBot.new idleEnv [bareUpdate 5, bareUpdate 3, bareUpdate 7]
      rfl).2.2 7 0 rfl (by decide) (by decide) (by decide) (by decide)⟩

/-- C8 as the specification words it fails: the batch with ids [5, 7, 3] is processed to its
end and leaves the cursor at 3, below the maximum 7; and from the cursor 7 the batch with the
single id 3 moves the cursor down to 3. -/
theorem handleUpdates_cursor_counterexample :
    (TelegramBot.new.handleUpdates idleEnv [bareUpdate 5, bareUpdate 7, bareUpdate 3]).1 =
        .ok () ∧
    stoi (TelegramBot.new.handleUpdates idleEnv
        [bareUpdate 5, bareUpdate 7, bareUpdate 3]).2.lastUpdateId = .ok 3 ∧
    ([5, 7, 3].foldl max (0 : Int) = 7 ∧ (3 : Int) < 7) ∧
    stoi ({ TelegramBot.new with lastUpdateId := "7" } : TelegramBot).lastUpdateId = .ok 7 ∧
    (({ TelegramBot.new with lastUpdateId := "7" } : TelegramBot).handleUpdates idleEnv
        [bareUpdate 3]).1 = .ok () ∧
    stoi (({ TelegramBot.new with lastUpdateId := "7" } : TelegramBot).handleUpdates idleEnv
        [bareUpdate 3]).2.lastUpdateId = .ok 3 :=
  ⟨rfl, rfl, ⟨by decide, by decide⟩, rfl, rfl, rfl⟩

/-- C9, as the code has it: with an empty `lastUpdateId` the `getUpdates` payload has no
`offset` field; `std::stoi(std::to_string(n))` returns `n` for every `int` `n`; and when
`lastUpdateId` is the decimal form of an `int` `n` below the largest one, 2147483647, the
payload's `offset` is exactly `n + 1`. -/
theorem getUpdatesPayload_spec (bot : TelegramBot) :
    (bot.lastUpdateId = "" → bot.getUpdatesPayload = .ok none) ∧
    (∀ n : Int, -2147483648 ≤ n → n ≤ 2147483647 → stoi (to_string n) = .ok n) ∧
    (∀ n : Int, -2147483648 ≤ n → n < 2147483647 → bot.lastUpdateId = to_string n →
      bot.getUpdatesPayload = .ok (some (n + 1))) := by
  refine ⟨?_, ?_, ?_⟩
  · intro h
    unfold TelegramBot.getUpdatesPayload
    rw [if_pos h]
  · intro n hlo hhi
    exact stoi_to_string n hlo hhi
  · intro n hlo hhi hcur
    have hne : bot.lastUpdateId ≠ "" := by
      rw [hcur]
      intro h
      have h' := congrArg stoi h
      rw [stoi_to_string n hlo (by omega)] at h'
      exact absurd h' (by simp [stoi, stoiSign])
    unfold TelegramBot.getUpdatesPayload
    rw [if_neg hne, hcur, stoi_to_string n hlo (by omega)]
    dsimp only
    rw [toInt32_of_int (by omega) (by omega)]

/-- Witness of C9 as amended: a fresh bot polls without offset; after the batch with ids
[5, 3, 7] the cursor is "7" and the next poll carries the offset 8. -/
theorem getUpdatesPayload_spec_witness :
    TelegramBot.new.getUpdatesPayload = .ok none ∧
    (TelegramBot.new.handleUpdates idleEnv
        [bareUpdate 5, bareUpdate 3, bareUpdate 7]).2.lastUpdateId = to_string 7 ∧
    (TelegramBot.new.handleUpdates idleEnv
        [bareUpdate 5, bareUpdate 3, bareUpdate 7]).2.getUpdatesPayload = .ok (some (7 + 1)) :=
  ⟨(getUpdatesPayload_spec TelegramBot.new).1 rfl, rfl,
    (getUpdatesPayload_spec
      (TelegramBot.new.handleUpdates idleEnv
        [bareUpdate 5, bareUpdate 3, bareUpdate 7]).2).2.2 7 (by decide) (by decide) rfl⟩

/-- C9 as the specification words it fails at the largest `int`: after the update with id
2147483647 is consumed the cursor is "2147483647", which `std::stoi` reads back, and the
addition of 1 leaves the range of `int`; the offset put in the payload is -2147483648, not
2147483648, and no `int` at all equals 2147483648. -/
theorem getUpdatesPayload_counterexample :
    (TelegramBot.new.handleUpdates idleEnv [bareUpdate 2147483647]).1 = .ok () ∧
    (TelegramBot.new.handleUpdates idleEnv [bareUpdate 2147483647]).2.lastUpdateId =
        "2147483647" ∧
    stoi "2147483647" = .ok 2147483647 ∧
    (TelegramBot.new.handleUpdates idleEnv [bareUpdate 2147483647]).2.getUpdatesPayload =
        .ok (some (-2147483648)) ∧
    (TelegramBot.new.handleUpdates idleEnv [bareUpdate 2147483647]).2.getUpdatesPayload ≠
        .ok (some (2147483647 + 1)) ∧
    (∀ m : Int, toInt32 m ≠ 2147483647 + 1) := by
  refine ⟨rfl, by decide, rfl, rfl, ?_, ?_⟩
  · intro h
    have h' : (TelegramBot.new.handleUpdates idleEnv
        [bareUpdate 2147483647]).2.getUpdatesPayload = .ok (some (-2147483648)) := rfl
    rw [h'] at h
    injection h with h
    injection h with h
    exact absurd h (by decide)
  · intro m
    unfold toInt32
    omega

/-- C10, as the code has it: `processMessage` compares the text with four commands by string
equality. "/start" and "/help" send their capability lists, "/illusion" runs
`sendIllusionChallenge`, "/image_url" sends the sample photo by URL, and for every other
text the fallback message is sent to the chat and that request is the only change of
state. -/
theorem processMessage_dispatch (bot : TelegramBot) (env : Env) (chatId text : String) :
    (text = "/start" →
      bot.processMessage env chatId text =
        bot.sendMessage env chatId
          "Welcome! Available commands:\n/illusion - Generate an optical illusion\n/help - Show help") ∧
    (text = "/help" →
      bot.processMessage env chatId text =
        bot.sendMessage env chatId
          "Available commands:\n/illusion - Generate an optical illusion\n/image_url - Send a sample image") ∧
    (text = "/illusion" →
      bot.processMessage env chatId text = bot.sendIllusionChallenge env chatId) ∧
    (text = "/image_url" →
      (bot.processMessage env chatId text).2 =
        { bot with
          effects := bot.effects ++
            [Effect.makeRequest
              (.sendPhoto chatId "https://vk.com/wall-186827059_25467" none none)] }) ∧
    (text ≠ "/start" → text ≠ "/help" → text ≠ "/illusion" → text ≠ "/image_url" →
      bot.processMessage env chatId text =
        bot.sendMessage env chatId "Unknown command. Type /help for available commands." ∧
      (bot.processMessage env chatId text).2 =
        { bot with
          effects := bot.effects ++
            [Effect.makeRequest
              (.sendMessage chatId "Unknown command. Type /help for available commands.")] }) := by
  refine ⟨?_, ?_, ?_, ?_, ?_⟩
  · intro h
    subst h
    rfl
  · intro h
    subst h
    rfl
  · intro h
    subst h
    rfl
  · intro h
    subst h
    exact TelegramBot.sendPhotoByUrl_snd bot env chatId _ ""
  · intro h₁ h₂ h₃ h₄
    have h : bot.processMessage env chatId text =
        bot.sendMessage env chatId "Unknown command. Type /help for available commands." := by
      unfold TelegramBot.processMessage
      rw [if_neg h₁, if_neg h₂, if_neg h₃, if_neg h₄]
    exact ⟨h, by rw [h, TelegramBot.sendMessage_snd]⟩

/-- Witness of C10 as amended: a command followed by an argument, "/start now", is no
command; the fallback message is the only effect. -/
theorem processMessage_dispatch_witness :
    (TelegramBot.new.processMessage idleEnv "1" "/start now").2.effects =
      [Effect.makeRequest
        (.sendMessage "1" "Unknown command. Type /help for available commands.")] :=
  congrArg TelegramBot.effects
    ((processMessage_dispatch TelegramBot.new idleEnv "1" "/start now").2.2.2.2
      (by decide) (by decide) (by decide) (by decide)).2

/-- C10 as the specification words it fails: the text "/image_url" is none of "/start",
"/help" and "/illusion", and `processMessage` does not send the fallback message for it:
its only request is a `sendPhoto`. -/
theorem processMessage_dispatch_counterexample :
    "/image_url" ≠ "/start" ∧ "/image_url" ≠ "/help" ∧ "/image_url" ≠ "/illusion" ∧
    (TelegramBot.new.processMessage idleEnv "1" "/image_url").2.effects =
      [Effect.makeRequest (.sendPhoto "1" "https://vk.com/wall-186827059_25467" none none)] ∧
    (TelegramBot.new.processMessage idleEnv "1" "/image_url").2.effects ≠
      [Effect.makeRequest
        (.sendMessage "1" "Unknown command. Type /help for available commands.")] := by
  decide

/-! ## The claims on the handlers -/

/-- C11, as the code has it, for a user id and a chat id that fit in an `int`. When the
acknowledgement request succeeds, `handleCallbackQuery` makes three calls in this order: the
acknowledgement of the query id, one `checkAnswer` with the sender's id and the data, and
one `sendMessage` to the chat, with "Correct! Well done." when `checkAnswer` returned true
and "Incorrect. Try again!" otherwise; the store is the one that `checkAnswer` leaves. A
sender without a stored challenge and a sender with a wrong answer get the same
"Incorrect. Try again!". When the acknowledgement request fails, the failure leaves the
handler at once: `checkAnswer` is not called and no message is sent. -/
theorem handleCallbackQuery_spec (bot : TelegramBot) (env : Env) (cq : CallbackQuery) :
    (-2147483648 ≤ cq.from_id → cq.from_id ≤ 2147483647 →
      -2147483648 ≤ cq.chat_id → cq.chat_id ≤ 2147483647 →
      ∀ response,
      env.transport bot.effects.length (.answerCallbackQuery cq.id) = .ok response →
      (bot.handleCallbackQuery env cq).2.effects =
        bot.effects ++
          [Effect.makeRequest (.answerCallbackQuery cq.id),
            Effect.checkAnswer (to_string cq.from_id) cq.data,
            Effect.makeRequest (.sendMessage (to_string cq.chat_id)
              (if (bot.gameLogic.checkAnswer (to_string cq.from_id) cq.data).1
                then "Correct! Well done." else "Incorrect. Try again!"))] ∧
      (bot.handleCallbackQuery env cq).2.gameLogic =
        (bot.gameLogic.checkAnswer (to_string cq.from_id) cq.data).2) ∧
    ((bot.gameLogic.activeChallenges.find (to_string cq.from_id) = none ∨
        ∃ c, bot.gameLogic.activeChallenges.find (to_string cq.from_id) = some c ∧
          c.correctAnswer ≠ cq.data) →
      (if (bot.gameLogic.checkAnswer (to_string cq.from_id) cq.data).1
        then "Correct! Well done." else "Incorrect. Try again!") = "Incorrect. Try again!") ∧
    (∀ what,
      env.transport bot.effects.length (.answerCallbackQuery cq.id) = .error what →
      bot.handleCallbackQuery env cq =
        (.error ("Request failed: " ++ what),
          { bot with
            effects := bot.effects ++ [Effect.makeRequest (.answerCallbackQuery cq.id)] })) := by
  refine ⟨?_, ?_, ?_⟩
  · intro hulo huhi hclo hchi response hack
    have hu : toInt32 cq.from_id = cq.from_id := toInt32_of_int hulo huhi
    have hc : toInt32 cq.chat_id = cq.chat_id := toInt32_of_int hclo hchi
    unfold TelegramBot.handleCallbackQuery
    simp only [TelegramBot.makeRequest, hack, thenDo, hu, hc]
    split <;> simp [TelegramBot.sendMessage_snd]
  · intro hmiss
    have hfalse :
        (bot.gameLogic.checkAnswer (to_string cq.from_id) cq.data).1 = false := by
      rcases hmiss with hnone | ⟨c, hc, hwrong⟩
      · rw [checkAnswer_of_find_none _ _ _ hnone]
      · unfold GameLogic.checkAnswer
        rw [hc]
        simpa using hwrong
    rw [hfalse]
    rfl
  · intro what hack
    unfold TelegramBot.handleCallbackQuery
    simp only [TelegramBot.makeRequest, hack, thenDo]

/-- Witness of C11 as amended: the bot holds the scenario challenge of "42"; the callback of
user 42 in chat 42 with data "first" and id "cb" is acknowledged, checked once and answered
with "Correct! Well done.". -/
theorem handleCallbackQuery_spec_witness :
    (({ TelegramBot.new with gameLogic := scenarioStore } : TelegramBot).handleCallbackQuery
        idleEnv ⟨42, 42, "first", "cb"⟩).2.effects =
      [Effect.makeRequest (.answerCallbackQuery "cb"), Effect.checkAnswer "42" "first",
        Effect.makeRequest (.sendMessage "42" "Correct! Well done.")] :=
  ((handleCallbackQuery_spec { TelegramBot.new with gameLogic := scenarioStore } idleEnv
    ⟨42, 42, "first", "cb"⟩).1 (by decide) (by decide) (by decide) (by decide) [] rfl).1

/-- C11 as the specification words it fails in two ways. With the network down, the
callback of user 42 with the right answer "first" ends in the exception of the failed
acknowledgement: the only call made is the acknowledgement, `checkAnswer` is not called (the
entry of "42" is still stored) and no message is sent. And with every request succeeding,
the callback of user 5000000000 in chat 5000000000, ids that do not fit in an `int`, is
checked under the user id "705032704" and answered to the chat "705032704". -/
theorem handleCallbackQuery_counterexample :
    (({ TelegramBot.new with gameLogic := scenarioStore } : TelegramBot).handleCallbackQuery
        downEnv ⟨42, 42, "first", "cb"⟩).1 = .error "Request failed: timeout" ∧
    (({ TelegramBot.new with gameLogic := scenarioStore } : TelegramBot).handleCallbackQuery
        downEnv ⟨42, 42, "first", "cb"⟩).2.effects =
      [Effect.makeRequest (.answerCallbackQuery "cb")] ∧
    (({ TelegramBot.new with gameLogic := scenarioStore } : TelegramBot).handleCallbackQuery
        downEnv ⟨42, 42, "first", "cb"⟩).2.gameLogic.activeChallenges.find "42" =
      some ⟨"42", "Which is bigger?", "first", "<bytes>", 0⟩ ∧
    to_string 5000000000 = "5000000000" ∧
    (TelegramBot.new.handleCallbackQuery idleEnv
        ⟨5000000000, 5000000000, "first", "cb"⟩).2.effects =
      [Effect.makeRequest (.answerCallbackQuery "cb"),
        Effect.checkAnswer "705032704" "first",
        Effect.makeRequest (.sendMessage "705032704" "Incorrect. Try again!")] :=
  ⟨rfl, by decide, by decide, by decide, by decide⟩

/-- C12, as the code has it. When `generatePrompt` returns an empty prompt, the handler
requests no image, never calls `startChallenge` (the store is unchanged) and sends no photo;
it sends the empty-prompt apology, and that is its only message when the send succeeds.
When the prompt is not empty and `generateImage` returns an empty payload, the same holds
with the apology for the image, a different text, after the one request for the image. In
both cases a failed send of the apology is caught by the handler's own `catch`, which sends
one more message, the apology that carries the failure reason. -/
theorem sendIllusionChallenge_empty (bot : TelegramBot) (env : Env) (chatId : String)
    (promptResponse : PromptResponse)
    (hprompt : env.generatePrompt bot.effects.length = .ok promptResponse) :
    (promptResponse.prompt = "" →
      (∀ response,
        env.transport (bot.effects.length + 1)
          (.sendMessage chatId
            "Sorry, I couldn't generate a proper prompt for the illusion. Please try again.") =
          .ok response →
        bot.sendIllusionChallenge env chatId =
          (.ok (),
            { bot with
              effects := bot.effects ++
                [Effect.generatePrompt,
                  Effect.makeRequest (.sendMessage chatId
                    "Sorry, I couldn't generate a proper prompt for the illusion. Please try again.")] })) ∧
      (∀ what,
        env.transport (bot.effects.length + 1)
          (.sendMessage chatId
            "Sorry, I couldn't generate a proper prompt for the illusion. Please try again.") =
          .error what →
        (bot.sendIllusionChallenge env chatId).2 =
          { bot with
            effects := bot.effects ++
              [Effect.generatePrompt,
                Effect.makeRequest (.sendMessage chatId
                  "Sorry, I couldn't generate a proper prompt for the illusion. Please try again."),
                Effect.makeRequest (.sendMessage chatId
                  ("Sorry, I encountered an error while generating the illusion: " ++
                    ("Request failed: " ++ what) ++ ". Please try again."))] })) ∧
    (promptResponse.prompt ≠ "" →
      env.generateImage (bot.effects.length + 1) promptResponse.prompt = .ok "" →
      (∀ response,
        env.transport (bot.effects.length + 2)
          (.sendMessage chatId
            "Sorry, I couldn't generate the illusion image. Please try again.") =
          .ok response →
        bot.sendIllusionChallenge env chatId =
          (.ok (),
            { bot with
              effects := bot.effects ++
                [Effect.generatePrompt, Effect.generateImage promptResponse.prompt,
                  Effect.makeRequest (.sendMessage chatId
                    "Sorry, I couldn't generate the illusion image. Please try again.")] })) ∧
      (∀ what,
        env.transport (bot.effects.length + 2)
          (.sendMessage chatId
            "Sorry, I couldn't generate the illusion image. Please try again.") =
          .error what →
        (bot.sendIllusionChallenge env chatId).2 =
          { bot with
            effects := bot.effects ++
              [Effect.generatePrompt, Effect.generateImage promptResponse.prompt,
                Effect.makeRequest (.sendMessage chatId
                  "Sorry, I couldn't generate the illusion image. Please try again."),
                Effect.makeRequest (.sendMessage chatId
                  ("Sorry, I encountered an error while generating the illusion: " ++
                    ("Request failed: " ++ what) ++ ". Please try again."))] })) ∧
    "Sorry, I couldn't generate the illusion image. Please try again." ≠
      "Sorry, I couldn't generate a proper prompt for the illusion. Please try again." := by
  refine ⟨?_, ?_, by decide⟩
  · intro hempty
    refine ⟨?_, ?_⟩
    · intro response hsend
      simp [TelegramBot.sendIllusionChallenge, TelegramBot.sendIllusionChallengeTry,
        TelegramBot.generatePrompt, TelegramBot.sendMessage, TelegramBot.makeRequest, thenDo,
        catchDo, hprompt, hempty, hsend]
    · intro what hsend
      simp only [TelegramBot.sendIllusionChallenge, TelegramBot.sendIllusionChallengeTry,
        TelegramBot.generatePrompt, TelegramBot.sendMessage, TelegramBot.makeRequest, thenDo,
        catchDo, hprompt, hempty, hsend, if_true, List.length_append, List.length_singleton]
      cases env.transport (bot.effects.length + 1 + 1)
        (.sendMessage chatId
          ("Sorry, I encountered an error while generating the illusion: " ++
            ("Request failed: " ++ what) ++ ". Please try again.")) <;> simp
  · intro hne himage
    refine ⟨?_, ?_⟩
    · intro response hsend
      simp [TelegramBot.sendIllusionChallenge, TelegramBot.sendIllusionChallengeTry,
        TelegramBot.generatePrompt, TelegramBot.generateImage, TelegramBot.sendMessage,
        TelegramBot.makeRequest, thenDo, catchDo, hprompt, hne, himage, hsend]
    · intro what hsend
      simp only [TelegramBot.sendIllusionChallenge, TelegramBot.sendIllusionChallengeTry,
        TelegramBot.generatePrompt, TelegramBot.generateImage, TelegramBot.sendMessage,
        TelegramBot.makeRequest, thenDo, catchDo, hprompt, hne, himage, hsend, if_true,
        if_false, List.length_append, List.length_singleton]
      cases env.transport (bot.effects.length + 1 + 1 + 1)
        (.sendMessage chatId
          ("Sorry, I encountered an error while generating the illusion: " ++
            ("Request failed: " ++ what) ++ ". Please try again.")) <;> simp

/-- Witness of C12 as amended: the AI service returns an empty prompt and the Telegram
requests succeed; the handler sends the empty-prompt apology to chat "7" and does nothing
else. -/
theorem sendIllusionChallenge_empty_witness :
    TelegramBot.new.sendIllusionChallenge
        { idleEnv with generatePrompt := fun _ => .ok ⟨"", "equal"⟩ } "7" =
      (.ok (),
        { TelegramBot.new with
          effects := TelegramBot.new.effects ++
            [Effect.generatePrompt,
              Effect.makeRequest (.sendMessage "7"
                "Sorry, I couldn't generate a proper prompt for the illusion. Please try again.")] }) :=
  ((sendIllusionChallenge_empty TelegramBot.new
    { idleEnv with generatePrompt := fun _ => .ok ⟨"", "equal"⟩ } "7" ⟨"", "equal"⟩
    rfl).1 rfl).1 [] rfl

/-- C12 as the specification words it fails when the apology cannot be delivered: the AI
service returns an empty prompt and the request that carries the empty-prompt apology fails;
the handler catches that failure and makes a second `sendMessage`, with the apology that
carries the failure reason, which fails too. Two messages are attempted for one empty prompt
and none is delivered. -/
theorem sendIllusionChallenge_empty_counterexample :
    emptyPromptEnv.generatePrompt 0 = .ok ⟨"", "equal"⟩ ∧
    (TelegramBot.new.sendIllusionChallenge emptyPromptEnv "7").1 =
      .error "Request failed: timeout" ∧
    (TelegramBot.new.sendIllusionChallenge emptyPromptEnv "7").2.effects =
      [Effect.generatePrompt,
        Effect.makeRequest (.sendMessage "7"
          "Sorry, I couldn't generate a proper prompt for the illusion. Please try again."),
        Effect.makeRequest (.sendMessage "7"
          "Sorry, I encountered an error while generating the illusion: Request failed: timeout. Please try again.")] :=
  ⟨rfl, rfl, by decide⟩

/-- C13, as the code has it. A failure with reason `r` raised in the `try` block of
`sendIllusionChallenge` is caught, and one message is sent to the chat whose text contains
`r`; the handler returns normally when that send succeeds, and when that send fails its
failure leaves the handler. The `try` block fails with the reason of `generatePrompt` when
that call fails, with the reason of `generateImage` when that call fails, and with the
reason of `makeRequest` when the send of the photo fails, the challenge being stored by
then. -/
theorem sendIllusionChallenge_catch (bot : TelegramBot) (env : Env) (chatId : String) :
    (∀ (r : String) (bot' : TelegramBot),
      bot.sendIllusionChallengeTry env chatId = (.error r, bot') →
      (bot.sendIllusionChallenge env chatId).2 =
        { bot' with
          effects := bot'.effects ++
            [Effect.makeRequest (.sendMessage chatId
              ("Sorry, I encountered an error while generating the illusion: " ++ r ++
                ". Please try again."))] } ∧
      (∀ response,
        env.transport bot'.effects.length
          (.sendMessage chatId
            ("Sorry, I encountered an error while generating the illusion: " ++ r ++
              ". Please try again.")) = .ok response →
        (bot.sendIllusionChallenge env chatId).1 = .ok ()) ∧
      (∀ what,
        env.transport bot'.effects.length
          (.sendMessage chatId
            ("Sorry, I encountered an error while generating the illusion: " ++ r ++
              ". Please try again.")) = .error what →
        (bot.sendIllusionChallenge env chatId).1 = .error ("Request failed: " ++ what))) ∧
    (∀ r, env.generatePrompt bot.effects.length = .error r →
      bot.sendIllusionChallengeTry env chatId =
        (.error r, { bot with effects := bot.effects ++ [Effect.generatePrompt] })) ∧
    (∀ (promptResponse : PromptResponse) (r : String),
      env.generatePrompt bot.effects.length = .ok promptResponse →
      promptResponse.prompt ≠ "" →
      env.generateImage (bot.effects.length + 1) promptResponse.prompt = .error r →
      bot.sendIllusionChallengeTry env chatId =
        (.error r,
          { bot with
            effects := bot.effects ++
              [Effect.generatePrompt, Effect.generateImage promptResponse.prompt] })) ∧
    (∀ (promptResponse : PromptResponse) (base64Image what : String),
      env.generatePrompt bot.effects.length = .ok promptResponse →
      promptResponse.prompt ≠ "" →
      env.generateImage (bot.effects.length + 1) promptResponse.prompt = .ok base64Image →
      base64Image ≠ "" →
      env.transport (bot.effects.length + 3)
        (.sendPhoto chatId ("data:image/png;base64," ++ base64Image)
          (some "Which object appears larger?") (some illusionKeyboard)) = .error what →
      bot.sendIllusionChallengeTry env chatId =
        (.error ("Request failed: " ++ what),
          { bot with
            gameLogic := bot.gameLogic.startChallenge (env.now bot.clockReads) chatId
              promptResponse.prompt promptResponse.correctAnswer base64Image
            effects := bot.effects ++
              [Effect.generatePrompt, Effect.generateImage promptResponse.prompt,
                Effect.startChallenge chatId promptResponse.prompt
                  promptResponse.correctAnswer base64Image,
                Effect.makeRequest
                  (.sendPhoto chatId ("data:image/png;base64," ++ base64Image)
                    (some "Which object appears larger?") (some illusionKeyboard))]
            clockReads := bot.clockReads + 1 })) := by
  refine ⟨?_, ?_, ?_, ?_⟩
  · intro r bot' htry
    refine ⟨?_, ?_, ?_⟩
    · simp only [TelegramBot.sendIllusionChallenge, htry, catchDo]
      exact TelegramBot.sendMessage_snd bot' env chatId _
    · intro response hsend
      simp only [TelegramBot.sendIllusionChallenge, htry, catchDo, TelegramBot.sendMessage,
        TelegramBot.makeRequest, hsend, thenDo]
    · intro what hsend
      simp only [TelegramBot.sendIllusionChallenge, htry, catchDo, TelegramBot.sendMessage,
        TelegramBot.makeRequest, hsend, thenDo]
  · intro r hprompt
    simp only [TelegramBot.sendIllusionChallengeTry, TelegramBot.generatePrompt, hprompt,
      thenDo]
  · intro promptResponse r hprompt hne himage
    simp [TelegramBot.sendIllusionChallengeTry, TelegramBot.generatePrompt,
      TelegramBot.generateImage, hprompt, hne, himage, thenDo]
  · intro promptResponse base64Image what hprompt hne himage hne' hsend
    simp [TelegramBot.sendIllusionChallengeTry, TelegramBot.generatePrompt,
      TelegramBot.generateImage, TelegramBot.startChallenge, TelegramBot.makeRequest,
      hprompt, hne, himage, hne', hsend, thenDo]

/-- Witness of C13 as amended: the AI service is unreachable and Telegram works; the failure
of `generatePrompt` is caught, its reason is sent to chat "7", and the handler returns
normally. -/
theorem sendIllusionChallenge_catch_witness :
    (TelegramBot.new.sendIllusionChallenge idleEnv "7").1 = .ok () ∧
    (TelegramBot.new.sendIllusionChallenge idleEnv "7").2.effects =
      [Effect.generatePrompt,
        Effect.makeRequest (.sendMessage "7"
          ("Sorry, I encountered an error while generating the illusion: " ++
            "Request failed: unreachable" ++ ". Please try again."))] :=
  ⟨((sendIllusionChallenge_catch TelegramBot.new idleEnv "7").1
      "Request failed: unreachable"
      { TelegramBot.new with effects := [Effect.generatePrompt] } rfl).2.1 [] rfl,
    congrArg TelegramBot.effects
      ((sendIllusionChallenge_catch TelegramBot.new idleEnv "7").1
        "Request failed: unreachable"
        { TelegramBot.new with effects := [Effect.generatePrompt] } rfl).1⟩

/-- C13 as the specification words it fails when the apology cannot be delivered: with the
network down `generatePrompt` fails, the handler catches that and tries to send the apology,
and the failure of this send leaves `sendIllusionChallenge`. In a batch the failure ends
`handleUpdates`, so the "/help" that follows the "/illusion" is never processed. -/
theorem sendIllusionChallenge_catch_counterexample :
    (TelegramBot.new.sendIllusionChallenge downEnv "7").1 = .error "Request failed: timeout" ∧
    (TelegramBot.new.sendIllusionChallenge downEnv "7").2.effects =
      [Effect.generatePrompt,
        Effect.makeRequest (.sendMessage "7"
          "Sorry, I encountered an error while generating the illusion: Request failed: timeout. Please try again.")] ∧
    (TelegramBot.new.handleUpdates downEnv
        [textUpdate 1 7 7 "/illusion", textUpdate 2 7 7 "/help"]).1 =
      .error "Request failed: timeout" ∧
    (TelegramBot.new.handleUpdates downEnv
        [textUpdate 1 7 7 "/illusion", textUpdate 2 7 7 "/help"]).2.effects =
      [Effect.generatePrompt,
        Effect.makeRequest (.sendMessage "7"
          "Sorry, I encountered an error while generating the illusion: Request failed: timeout. Please try again.")] :=
  ⟨rfl, by decide, rfl, by decide⟩

/-- C14 at a failing input: user 7 sends "/illusion" in chat 100 and generation succeeds
with the answer "first". The challenge is stored under the chat id "100"
(`startChallenge "100"`), the callback of the same user 7 with the data "first" is checked
under the user id "7" (`checkAnswer "7"`), where nothing is stored, and it is answered with
"Incorrect. Try again!"; the challenge stays stored under "100". Where the chat id equals
the user id the same exchange is answered with "Correct! Well done.". -/
theorem illusion_keyed_by_chat_id :
    (TelegramBot.new.handleUpdates illusionEnv
        [textUpdate 1 100 7 "/illusion", callbackUpdate 2 100 7 "first" "cb"]).1 = .ok () ∧
    (TelegramBot.new.handleUpdates illusionEnv
        [textUpdate 1 100 7 "/illusion", callbackUpdate 2 100 7 "first" "cb"]).2.effects =
      [Effect.generatePrompt, Effect.generateImage "Two circles",
        Effect.startChallenge "100" "Two circles" "first" "aW1n",
        Effect.makeRequest
          (.sendPhoto "100" "data:image/png;base64,aW1n" (some "Which object appears larger?")
            (some illusionKeyboard)),
        Effect.makeRequest (.answerCallbackQuery "cb"),
        Effect.checkAnswer "7" "first",
        Effect.makeRequest (.sendMessage "100" "Incorrect. Try again!")] ∧
    (TelegramBot.new.handleUpdates illusionEnv
        [textUpdate 1 100 7 "/illusion", callbackUpdate 2 100 7 "first"
          "cb"]).2.gameLogic.activeChallenges.nodes =
      [("100", ⟨"100", "Two circles", "first", "aW1n", 0⟩)] ∧
    (TelegramBot.new.handleUpdates illusionEnv
        [textUpdate 1 7 7 "/illusion", callbackUpdate 2 7 7 "first" "cb"]).2.effects =
      [Effect.generatePrompt, Effect.generateImage "Two circles",
        Effect.startChallenge "7" "Two circles" "first" "aW1n",
        Effect.makeRequest
          (.sendPhoto "7" "data:image/png;base64,aW1n" (some "Which object appears larger?")
            (some illusionKeyboard)),
        Effect.makeRequest (.answerCallbackQuery "cb"),
        Effect.checkAnswer "7" "first",
        Effect.makeRequest (.sendMessage "7" "Correct! Well done.")] :=
  ⟨rfl, by decide, by decide, by decide⟩

/-! ## Lemmas on the loop of `start` -/

theorem Untouched.append {u : Int} {n : Nat} {bot : TelegramBot} (h : Untouched u n bot)
    (bot' : TelegramBot) (e : Effect) (hu : bot'.updateCount = bot.updateCount)
    (he : bot'.effects = bot.effects ++ [e]) (hs : e.isSweep = false) : Untouched u n bot' := by
  refine ⟨hu.trans h.1, ?_⟩
  unfold TelegramBot.sweeps
  rw [he, List.countP_append]
  simp only [List.countP_cons, List.countP_nil, hs]
  exact h.2

theorem TelegramBot.makeRequest_untouched (bot : TelegramBot) (env : Env) (request : Request)
    (u : Int) (n : Nat) (h : Untouched u n bot) :
    Untouched u n (bot.makeRequest env request).2 := by
  rw [TelegramBot.makeRequest_snd]
  exact h.append _ _ rfl rfl rfl

theorem TelegramBot.sendMessage_untouched (bot : TelegramBot) (env : Env)
    (chatId text : String) (u : Int) (n : Nat) (h : Untouched u n bot) :
    Untouched u n (bot.sendMessage env chatId text).2 := by
  rw [TelegramBot.sendMessage_snd]
  exact h.append _ _ rfl rfl rfl

theorem TelegramBot.sendIllusionChallenge_untouched (bot : TelegramBot) (env : Env)
    (chatId : String) (u : Int) (n : Nat) (h : Untouched u n bot) :
    Untouched u n (bot.sendIllusionChallenge env chatId).2 := by
  unfold TelegramBot.sendIllusionChallenge
  apply catchDo_snd_prop (Untouched u n)
  · unfold TelegramBot.sendIllusionChallengeTry
    apply thenDo_snd_prop (Untouched u n)
    · exact h.append _ _ rfl rfl rfl
    · intro promptResponse b1 h1
      split
      · exact TelegramBot.sendMessage_untouched b1 env _ _ u n h1
      · apply thenDo_snd_prop (Untouched u n)
        · exact h1.append _ _ rfl rfl rfl
        · intro base64Image b2 h2
          split
          · exact TelegramBot.sendMessage_untouched b2 env _ _ u n h2
          · apply thenDo_snd_prop (Untouched u n)
            · apply TelegramBot.makeRequest_untouched
              exact h2.append _ _ rfl rfl rfl
            · intro _ b4 h4
              exact h4
  · intro w b hb
    exact TelegramBot.sendMessage_untouched b env _ _ u n hb

theorem TelegramBot.handleCallbackQuery_untouched (bot : TelegramBot) (env : Env)
    (callbackQuery : CallbackQuery) (u : Int) (n : Nat) (h : Untouched u n bot) :
    Untouched u n (bot.handleCallbackQuery env callbackQuery).2 := by
  unfold TelegramBot.handleCallbackQuery
  apply thenDo_snd_prop (Untouched u n)
  · exact TelegramBot.makeRequest_untouched bot env _ u n h
  · intro _ b1 h1
    dsimp only
    split
    · apply TelegramBot.sendMessage_untouched
      exact h1.append _ _ rfl rfl rfl
    · apply TelegramBot.sendMessage_untouched
      exact h1.append _ _ rfl rfl rfl

theorem TelegramBot.processMessage_untouched (bot : TelegramBot) (env : Env)
    (chatId text : String) (u : Int) (n : Nat) (h : Untouched u n bot) :
    Untouched u n (bot.processMessage env chatId text).2 := by
  unfold TelegramBot.processMessage
  split
  · exact TelegramBot.sendMessage_untouched bot env _ _ u n h
  · split
    · exact TelegramBot.sendMessage_untouched bot env _ _ u n h
    · split
      · exact TelegramBot.sendIllusionChallenge_untouched bot env chatId u n h
      · split
        · rw [TelegramBot.sendPhotoByUrl_snd]
          exact h.append _ _ rfl rfl rfl
        · exact TelegramBot.sendMessage_untouched bot env _ _ u n h

theorem TelegramBot.handleUpdate_untouched (bot : TelegramBot) (env : Env) (update : Update)
    (u : Int) (n : Nat) (h : Untouched u n bot) :
    Untouched u n (bot.handleUpdate env update).2 := by
  have hstore : Untouched u n (bot.storeUpdateId update) := by
    unfold TelegramBot.storeUpdateId
    split
    · exact h
    · exact h
  unfold TelegramBot.handleUpdate
  apply thenDo_snd_prop (Untouched u n)
  · unfold TelegramBot.handleMessage
    split
    · split
      · exact TelegramBot.processMessage_untouched _ env _ _ u n hstore
      · exact hstore
    · exact hstore
  · intro _ b2 h2
    split
    · exact TelegramBot.handleCallbackQuery_untouched b2 env _ u n h2
    · exact h2

theorem TelegramBot.handleUpdates_untouched (env : Env) (u : Int) (n : Nat) :
    ∀ (updates : List Update) (bot : TelegramBot), Untouched u n bot →
      Untouched u n (bot.handleUpdates env updates).2
  | [], _, h => h
  | update :: rest, bot, h => by
    unfold TelegramBot.handleUpdates
    apply thenDo_snd_prop (Untouched u n)
    · exact TelegramBot.handleUpdate_untouched bot env update u n h
    · intro _ b hb
      exact TelegramBot.handleUpdates_untouched env u n rest b hb

theorem thenDo_cases {α β : Type} (Q : Except String β × TelegramBot → Prop)
    (first : Except String α × TelegramBot)
    (next : α → TelegramBot → Except String β × TelegramBot)
    (herr : ∀ w, first.1 = .error w → Q (.error w, first.2))
    (hok : ∀ a, first.1 = .ok a → Q (next a first.2)) : Q (thenDo first next) := by
  obtain ⟨out, b⟩ := first
  cases out with
  | error w => exact herr w rfl
  | ok a => exact hok a rfl

theorem TelegramBot.startTry_outcome (bot : TelegramBot) (env : Env) (u : Int) (n : Nat)
    (h : Untouched u n bot) : TryOutcome u n (bot.startTry env) := by
  unfold TelegramBot.startTry
  apply thenDo_cases (TryOutcome u n)
  · intro w _
    exact h
  · intro offset _
    have h1 := TelegramBot.makeRequest_untouched bot env (.getUpdates offset) u n h
    apply thenDo_cases (TryOutcome u n)
    · intro w _
      exact h1
    · intro response _
      have h2 := TelegramBot.handleUpdates_untouched env u n response _ h1
      apply thenDo_cases (TryOutcome u n)
      · intro w _
        exact h2
      · intro _ _
        dsimp only
        rw [h2.1]
        split
        · rename_i hdiv
          refine ⟨h2.1 ▸ rfl, ?_⟩
          show List.countP Effect.isSweep (_ ++ [Effect.cleanupExpiredChallenges]) = _
          rw [List.countP_append, if_pos hdiv]
          have := h2.2
          unfold TelegramBot.sweeps at this
          rw [this]
          rfl
        · rename_i hdiv
          refine ⟨rfl, ?_⟩
          rw [if_neg hdiv]
          exact h2.2

theorem TelegramBot.startIteration_counts (bot : TelegramBot) (env : Env) :
    (bot.startIteration env).updateCount =
        (if bot.iterationSucceeds env = true then toInt32 (bot.updateCount + 1)
          else bot.updateCount) ∧
      (bot.startIteration env).sweeps =
        bot.sweeps +
          (if bot.iterationSucceeds env = true ∧
              Int.tmod (toInt32 (bot.updateCount + 1)) 10 = 0 then 1 else 0) := by
  have hout := TelegramBot.startTry_outcome bot env bot.updateCount bot.sweeps ⟨rfl, rfl⟩
  unfold TelegramBot.startIteration TelegramBot.iterationSucceeds
  unfold TryOutcome at hout
  generalize bot.startTry env = r at hout ⊢
  obtain ⟨out, b⟩ := r
  cases out with
  | ok a =>
    simp only [catchDo, if_true, true_and]
    exact hout
  | error w =>
    have hb : Untouched bot.updateCount bot.sweeps
        { b with effects := b.effects ++ [Effect.sleep 1] } :=
      Untouched.append hout _ _ rfl rfl rfl
    simp only [catchDo, Bool.false_eq_true, if_false, false_and, Nat.add_zero]
    exact hb

theorem TelegramBot.start_succ (env : Env) :
    ∀ (n : Nat) (bot : TelegramBot),
      TelegramBot.start env (n + 1) bot = (TelegramBot.start env n bot).startIteration env
  | 0, _ => rfl
  | n + 1, bot => by
    show TelegramBot.start env (n + 1) (bot.startIteration env) = _
    rw [TelegramBot.start_succ env n (bot.startIteration env)]
    rfl

theorem TelegramBot.successes_succ (env : Env) :
    ∀ (n : Nat) (bot : TelegramBot),
      TelegramBot.successes env (n + 1) bot =
        TelegramBot.successes env n bot +
          (if (TelegramBot.start env n bot).iterationSucceeds env = true then 1 else 0)
  | 0, bot => by simp [TelegramBot.successes, TelegramBot.start]
  | n + 1, bot => by
    show (if bot.iterationSucceeds env = true then 1 else 0) +
        TelegramBot.successes env (n + 1) (bot.startIteration env) = _
    rw [TelegramBot.successes_succ env n (bot.startIteration env)]
    show _ = (if bot.iterationSucceeds env = true then 1 else 0) +
        TelegramBot.successes env n (bot.startIteration env) +
      (if (TelegramBot.start env n (bot.startIteration env)).iterationSucceeds env = true
        then 1 else 0)
    omega

theorem TelegramBot.start_updateCount (env : Env) (bot : TelegramBot)
    (h0 : bot.updateCount = 0) :
    ∀ (n : Nat), TelegramBot.successes env n bot < 2147483648 →
      (TelegramBot.start env n bot).updateCount = (TelegramBot.successes env n bot : Int)
  | 0, _ => h0
  | n + 1, hsmall => by
    rw [TelegramBot.successes_succ] at hsmall ⊢
    have ih := TelegramBot.start_updateCount env bot h0 n (by omega)
    rw [TelegramBot.start_succ, (TelegramBot.startIteration_counts _ env).1, ih]
    split
    · rename_i hs
      rw [if_pos hs] at hsmall
      rw [toInt32_of_int (by omega) (by omega)]
      push_cast
      rfl
    · simp

/-! ## The claims on the loop and on late answers -/

/-- C15, as the code has it: the counter of `start` counts the passes through the loop that
get through the `try` block, and the sweep is the last statement of that block. From a
fresh counter, and as long as fewer than 2147483648 passes have succeeded, the pass numbered
`n + 1` calls `cleanupExpiredChallenges`, once, exactly when it gets through its `try` block
and the number of passes that have done so, this one included, is a multiple of 10. A pass in
which the fetch or the dispatch fails is not counted and makes no sweep. -/
theorem start_sweep_schedule (env : Env) (bot : TelegramBot) (n : Nat)
    (h0 : bot.updateCount = 0)
    (hsmall : TelegramBot.successes env (n + 1) bot < 2147483648) :
    (TelegramBot.start env (n + 1) bot).sweeps =
      (TelegramBot.start env n bot).sweeps +
        (if (TelegramBot.start env n bot).iterationSucceeds env = true ∧
            TelegramBot.successes env (n + 1) bot % 10 = 0 then 1 else 0) := by
  have hsucc := TelegramBot.successes_succ env n bot
  have hcount := TelegramBot.start_updateCount env bot h0 n (by omega)
  have hite :
      (if (TelegramBot.start env n bot).iterationSucceeds env = true ∧
          Int.tmod (toInt32 ((TelegramBot.successes env n bot : Int) + 1)) 10 = 0
        then 1 else 0) =
      (if (TelegramBot.start env n bot).iterationSucceeds env = true ∧
          TelegramBot.successes env (n + 1) bot % 10 = 0 then 1 else 0) := by
    by_cases hs : (TelegramBot.start env n bot).iterationSucceeds env = true
    · rw [if_pos hs] at hsucc
      have hto : toInt32 ((TelegramBot.successes env n bot : Int) + 1) =
          ((TelegramBot.successes env (n + 1) bot : Nat) : Int) := by
        rw [toInt32_of_int (by omega) (by omega), hsucc]
        push_cast
        rfl
      have hmod : Int.tmod ((TelegramBot.successes env (n + 1) bot : Nat) : Int) 10 = 0 ↔
          TelegramBot.successes env (n + 1) bot % 10 = 0 := by
        rw [Int.tmod_eq_emod (Int.ofNat_nonneg _) (by decide)]
        omega
      rw [hto]
      simp only [hs, true_and, hmod]
    · rw [if_neg (fun h => hs h.1), if_neg (fun h => hs h.1)]
  rw [TelegramBot.start_succ, (TelegramBot.startIteration_counts _ env).2, hcount, hite]

/-- Witness of C15 as amended: the first pass fails and the ten that follow succeed; the
sweep comes at the end of the pass numbered 11, the tenth that succeeded. -/
theorem start_sweep_schedule_witness :
    TelegramBot.successes flakyEnv 11 TelegramBot.new = 10 ∧
    (TelegramBot.start flakyEnv 11 TelegramBot.new).sweeps =
      (TelegramBot.start flakyEnv 10 TelegramBot.new).sweeps + 1 :=
  ⟨by decide, start_sweep_schedule flakyEnv TelegramBot.new 10 rfl (by decide)⟩

/-- C15 as the specification words it fails once a pass has failed: the first pass loses its
fetch and the next ten succeed. No sweep is made in the first ten passes, so none at the end
of pass 10, and the first sweep is made at the end of pass 11. -/
theorem start_sweep_schedule_counterexample :
    (TelegramBot.new.iterationSucceeds flakyEnv = false) ∧
    (TelegramBot.start flakyEnv 9 TelegramBot.new).sweeps = 0 ∧
    (TelegramBot.start flakyEnv 10 TelegramBot.new).sweeps = 0 ∧
    (TelegramBot.start flakyEnv 11 TelegramBot.new).sweeps = 1 :=
  ⟨by decide, by decide, by decide, by decide⟩

/-- C16: `checkAnswer` does not consult expiry. When the store still holds an entry for `U`
whose age at clock reading `now` is 10 minutes (600000000000 ticks) or more,
`getActiveChallenge U` reports it absent, yet `checkAnswer U s` returns true exactly when
`s` is the stored `correctAnswer`, in particular for that answer, and removes the entry;
the verdict is the one any store gives whose entry for `U` has the same `correctAnswer`,
whatever its age. -/
theorem checkAnswer_ignores_expiry (g : GameLogic) (now : Int) (U s : String) (c : Challenge)
    (h : g.activeChallenges.find U = some c) (hexp : now - c.createdAt ≥ 600000000000) :
    (g.getActiveChallenge now U).1 = none ∧
    ((g.checkAnswer U s).1 = true ↔ s = c.correctAnswer) ∧
    (g.checkAnswer U c.correctAnswer).1 = true ∧
    (g.checkAnswer U s).2.activeChallenges.find U = none ∧
    (∀ (g' : GameLogic) (c' : Challenge), g'.activeChallenges.find U = some c' →
      c'.correctAnswer = c.correctAnswer → (g'.checkAnswer U s).1 = (g.checkAnswer U s).1) := by
  have hverdict : ∀ (g' : GameLogic) (c' : Challenge) (s' : String),
      g'.activeChallenges.find U = some c' →
      (g'.checkAnswer U s').1 = decide (c'.correctAnswer = s') := by
    intro g' c' s' h'
    unfold GameLogic.checkAnswer
    rw [h']
  refine ⟨?_, ?_, ?_, checkAnswer_erases_entry g U s c h, ?_⟩
  · rw [getActiveChallenge_of_find_some g now U c h, if_neg (by omega)]
  · rw [hverdict g c s h]
    simp only [decide_eq_true_eq]
    exact eq_comm
  · rw [hverdict g c _ h]
    simp
  · intro g' c' h' hsame
    rw [hverdict g' c' s h', hverdict g c s h, hsame]

/-- Witness of C16: the scenario entry of "42", created at 0, is reported absent at 10
minutes, and the answer "first" given then is still judged correct. -/
theorem checkAnswer_ignores_expiry_witness :
    (scenarioStore.getActiveChallenge 600000000000 "42").1 = none ∧
    (scenarioStore.checkAnswer "42" "first").1 = true ∧
    (scenarioStore.checkAnswer "42" "first").2.activeChallenges.find "42" = none :=
  ⟨(checkAnswer_ignores_expiry scenarioStore 600000000000 "42" "first"
      ⟨"42", "Which is bigger?", "first", "<bytes>", 0⟩ (by decide) (by decide)).1,
    (checkAnswer_ignores_expiry scenarioStore 600000000000 "42" "first"
      ⟨"42", "Which is bigger?", "first", "<bytes>", 0⟩ (by decide) (by decide)).2.2.1,
    (checkAnswer_ignores_expiry scenarioStore 600000000000 "42" "first"
      ⟨"42", "Which is bigger?", "first", "<bytes>", 0⟩ (by decide) (by decide)).2.2.2.1⟩
